import Mathlib

/-!
Verification of the OV5640 camera sensor driver (src/ov5640.c) against its
natural-language specification.

The driver is shallowly embedded: the injected bus-I/O callback struct is
modelled as a `Bus σ` record (a caller-supplied bus with hidden state `σ`,
a register write and a register read), the sensor handle `OV5640_Object_t`
as the structure `OV5640_Object`, and each driver function as a pure Lean
function that threads the bus state and additionally returns the sequence
of bus operations it issued (its trace).  Register tables are embedded as
`List (Nat × Nat)` with the entries of the C arrays.  Machine integers are
modelled as `Nat`/`Int` with explicit `&&& 0xFF` (resp. `% 65536`) masks
exactly where the C code truncates to `uint8_t`/`uint16_t`.  A C array
access without a bounds check is modelled as an `Option`-valued lookup, so
a driver function that can perform an out-of-bounds access returns `none`
on exactly the inputs where the access is out of bounds.

The repository ships only the translation unit ov5640.c; the header
ov5640.h it includes (register-address constants, status codes and the
small argument enumerations) is not part of src/.  Those constants are
modelled from the spec, which fixes register addresses by the sensor's
datasheet and describes the enumerations; each such definition carries a
"Modelled from the spec" doc comment.  No theorem below depends on the
numeric value of any of these constants beyond their being the distinct
codes the driver compares against.
-/

/-- Modelled from the spec: success status code from the missing header
ov5640.h (the spec's error taxonomy distinguishes success from the error
kinds; the code also returns the literal 1 for the focus-init timeout,
"a generic failure code distinct from the bus-error code", so OV5640_OK
is 0 and OV5640_ERROR a negative sentinel). -/
abbrev OV5640_OK : Int := 0

/-- Modelled from the spec: generic error status code from the missing
header ov5640.h. -/
abbrev OV5640_ERROR : Int := -1

/-- Modelled from the spec: resolution identifiers from the missing header
ov5640.h; a bounded enumeration of the five supported presets, listed in
increasing size, with OV5640_R800x480 the largest supported value. -/
abbrev OV5640_R160x120 : Nat := 0

/-- Modelled from the spec: resolution identifier (320x240). -/
abbrev OV5640_R320x240 : Nat := 1

/-- Modelled from the spec: resolution identifier (480x272). -/
abbrev OV5640_R480x272 : Nat := 2

/-- Modelled from the spec: resolution identifier (640x480). -/
abbrev OV5640_R640x480 : Nat := 3

/-- Modelled from the spec: resolution identifier (800x480), the largest
resolution OV5640_Init accepts. -/
abbrev OV5640_R800x480 : Nat := 4

/-- Modelled from the spec: pixel format identifier from the missing
header ov5640.h (five supported formats, distinct codes). -/
abbrev OV5640_RGB565 : Nat := 0

/-- Modelled from the spec: pixel format identifier. -/
abbrev OV5640_RGB888 : Nat := 1

/-- Modelled from the spec: pixel format identifier. -/
abbrev OV5640_YUV422 : Nat := 2

/-- Modelled from the spec: pixel format identifier (8-bit monochrome). -/
abbrev OV5640_Y8 : Nat := 3

/-- Modelled from the spec: pixel format identifier. -/
abbrev OV5640_JPEG : Nat := 4

/-- Modelled from the spec: the two accepted sentinel values per polarity
axis, from the missing header ov5640.h (each axis is a single bit in the
polarity control register, so the two sentinels per axis are 0 and 1). -/
abbrev OV5640_POLARITY_PCLK_LOW : Nat := 0

/-- Modelled from the spec: polarity sentinel. -/
abbrev OV5640_POLARITY_PCLK_HIGH : Nat := 1

/-- Modelled from the spec: polarity sentinel. -/
abbrev OV5640_POLARITY_HREF_LOW : Nat := 0

/-- Modelled from the spec: polarity sentinel. -/
abbrev OV5640_POLARITY_HREF_HIGH : Nat := 1

/-- Modelled from the spec: polarity sentinel. -/
abbrev OV5640_POLARITY_VSYNC_LOW : Nat := 0

/-- Modelled from the spec: polarity sentinel. -/
abbrev OV5640_POLARITY_VSYNC_HIGH : Nat := 1

/-- Modelled from the spec: the four mirror/flip selector values from the
missing header ov5640.h (none, mirror, flip, both; the switch in
OV5640_MirrorFlipConfig treats every value other than mirror/flip/both as
none via its default case, so only distinctness matters). -/
abbrev OV5640_MIRROR_FLIP_NONE : Nat := 0

/-- Modelled from the spec: mirror/flip selector. -/
abbrev OV5640_FLIP : Nat := 1

/-- Modelled from the spec: mirror/flip selector. -/
abbrev OV5640_MIRROR : Nat := 2

/-- Modelled from the spec: mirror/flip selector. -/
abbrev OV5640_MIRROR_FLIP : Nat := 3

/-- Modelled from the spec: the serial (MIPI) interface-mode code from the
missing header; OV5640_Init compares the handle's Mode field against it
and treats every other value as the parallel interface. -/
abbrev SERIAL_MODE : Nat := 1

/-- One bus operation issued by the driver through the injected bus-I/O
callbacks: a single-byte register write or a single-byte register read. -/
inductive BusOp where
  | wr : Nat → Nat → BusOp
  | rd : Nat → BusOp
deriving DecidableEq

/-- The injected bus-I/O capability set (the spec's "Bus Binding").  The
bus owns hidden state `σ`; a write takes the state, a 16-bit register
address and the byte to write and returns the new state and a status; a
read returns the new state, the byte read and a status.  The driver only
ever compares statuses against OV5640_OK. -/
structure Bus (σ : Type) where
  write : σ → Nat → Nat → σ × Int
  read : σ → Nat → σ × Nat × Int

/-- The sensor handle OV5640_Object_t (fields as used by ov5640.c): the
"initialized" flag, the interface mode, the MIPI virtual channel and the
four persisted tuning codes bright/saturation/contrast/huedegree. -/
structure OV5640_Object where
  IsInitialized : Nat
  Mode : Nat
  VirtualChannelID : Nat
  bright : Nat
  saturation : Nat
  contrast : Nat
  huedegree : Nat
deriving DecidableEq

/-- Result of a driver call that does not modify the handle: final bus
state, returned status, and the trace of bus operations issued. -/
structure WOut (σ : Type) where
  bus : σ
  ret : Int
  trace : List BusOp

/-- Result of a driver call that may modify the handle: final bus state,
handle after the call, returned status, and the trace of bus operations
issued. -/
structure DOut (σ : Type) where
  bus : σ
  obj : OV5640_Object
  ret : Int
  trace : List BusOp

/-- Result of a register read inside the driver: bus state, the byte read
(the C code reads into a `uint8_t` buffer, hence the 0xFF mask), status,
trace. -/
structure ROut (σ : Type) where
  bus : σ
  val : Nat
  ret : Int
  trace : List BusOp

/-- Embedding of ov5640_write_reg (the low-level component write helper,
shipped outside src/): a single-byte register write forwarded to the bus
binding, recorded in the trace. -/
def ov5640_write_reg {σ : Type} (B : Bus σ) (s : σ) (reg val : Nat) : WOut σ :=
  let p := B.write s reg val
  ⟨p.1, p.2, [BusOp.wr reg val]⟩

/-- Embedding of ov5640_read_reg: a single-byte register read forwarded to
the bus binding; the driver receives the byte through a `uint8_t` buffer,
modelled by the 0xFF mask. -/
def ov5640_read_reg {σ : Type} (B : Bus σ) (s : σ) (reg : Nat) : ROut σ :=
  let p := B.read s reg
  ⟨p.1, p.2.1 &&& 0xFF, p.2.2, [BusOp.rd reg]⟩

/-- The guarded register-table loop of OV5640_Init lines 400-408 (also the
loop shape of OV5640_SetResolution and OV5640_SetPixelFormat): each
iteration runs only while ret has not become OV5640_ERROR, casts the
table value to `uint8_t` and issues one write; a failed write sets ret to
OV5640_ERROR, so every remaining iteration skips its body.  The
`(void)OV5640_Delay` call present in the OV5640_SetPixelFormat loops is a
GetTick busy-wait that issues no bus operation and is modelled as a
no-op. -/
def applyTableGuarded {σ : Type} (B : Bus σ) : σ → Int → List (Nat × Nat) → WOut σ
  | s, ret, [] => ⟨s, ret, []⟩
  | s, ret, e :: rest =>
    if ret ≠ OV5640_ERROR then
      let w := ov5640_write_reg B s e.1 (e.2 &&& 0xFF)
      let ret1 := if w.ret ≠ OV5640_OK then OV5640_ERROR else ret
      let r := applyTableGuarded B w.bus ret1 rest
      ⟨r.bus, r.ret, w.trace ++ r.trace⟩
    else
      applyTableGuarded B s ret rest

/-- The unguarded register-table loop of OV5640_OutSize_Set lines
2613-2619, OV5640_ImageWin_Set, OV5640_JPEG_Mode lines 2666-2672 and
OV5640_RGB565_Mode: every entry is written unconditionally; a failed
write only records OV5640_ERROR in ret and the loop continues with the
next entry. -/
def applyTableUnguarded {σ : Type} (B : Bus σ) : σ → Int → List (Nat × Nat) → WOut σ
  | s, ret, [] => ⟨s, ret, []⟩
  | s, ret, e :: rest =>
    let w := ov5640_write_reg B s e.1 (e.2 &&& 0xFF)
    let ret1 := if w.ret ≠ OV5640_OK then OV5640_ERROR else ret
    let r := applyTableUnguarded B w.bus ret1 rest
    ⟨r.bus, r.ret, w.trace ++ r.trace⟩

/-- The break-on-failure register-table loop of OV5640_EnableDVPMode and
OV5640_EnableMIPIMode: the first failed write sets OV5640_ERROR and
breaks out of the loop. -/
def applyTableBreak {σ : Type} (B : Bus σ) : σ → Int → List (Nat × Nat) → WOut σ
  | s, ret, [] => ⟨s, ret, []⟩
  | s, ret, e :: rest =>
    let w := ov5640_write_reg B s e.1 (e.2 &&& 0xFF)
    if w.ret ≠ OV5640_OK then ⟨w.bus, OV5640_ERROR, w.trace⟩
    else
      let r := applyTableBreak B w.bus ret rest
      ⟨r.bus, r.ret, w.trace ++ r.trace⟩

/-- C array access with an `int`-valued index and no bounds check
(`table[Level + 4]` in the tuning setters): `none` exactly when the index
is outside the array, i.e. the access the C code performs there is out of
bounds. -/
def tblIdx (l : List Nat) (i : Int) : Option Nat :=
  if h : 0 ≤ i ∧ i.toNat < l.length then some (l.get ⟨i.toNat, h.2⟩) else none

/- Register-address constants used by the embedded functions and tables.
The header ov5640.h that defines them is repository code missing from
src/; they are modelled from the spec, which fixes all register
addresses by the sensor's datasheet (spec section 6). No theorem below
depends on these numeric values. -/

abbrev OV5640_5060HZ_CTRL01 : Nat := 0x3c01
abbrev OV5640_5060HZ_CTRL04 : Nat := 0x3c04
abbrev OV5640_5060HZ_CTRL05 : Nat := 0x3c05
abbrev OV5640_AEC_B50_STEP_HIGH : Nat := 0x3a08
abbrev OV5640_AEC_B50_STEP_LOW : Nat := 0x3a09
abbrev OV5640_AEC_B60_STEP_HIGH : Nat := 0x3a0a
abbrev OV5640_AEC_B60_STEP_LOW : Nat := 0x3a0b
abbrev OV5640_AEC_CTRL02 : Nat := 0x3a02
abbrev OV5640_AEC_CTRL03 : Nat := 0x3a03
abbrev OV5640_AEC_CTRL0D : Nat := 0x3a0d
abbrev OV5640_AEC_CTRL0E : Nat := 0x3a0e
abbrev OV5640_AEC_CTRL0F : Nat := 0x3a0f
abbrev OV5640_AEC_CTRL10 : Nat := 0x3a10
abbrev OV5640_AEC_CTRL11 : Nat := 0x3a11
abbrev OV5640_AEC_CTRL13 : Nat := 0x3a13
abbrev OV5640_AEC_CTRL1B : Nat := 0x3a1b
abbrev OV5640_AEC_CTRL1E : Nat := 0x3a1e
abbrev OV5640_AEC_CTRL1F : Nat := 0x3a1f
abbrev OV5640_AEC_GAIN_CEILING_HIGH : Nat := 0x3a18
abbrev OV5640_AEC_GAIN_CEILING_LOW : Nat := 0x3a19
abbrev OV5640_AEC_MAX_EXPO_HIGH : Nat := 0x3a14
abbrev OV5640_AEC_MAX_EXPO_LOW : Nat := 0x3a15
abbrev OV5640_AWB_CTRL00 : Nat := 0x5180
abbrev OV5640_AWB_CTRL01 : Nat := 0x5181
abbrev OV5640_AWB_CTRL02 : Nat := 0x5182
abbrev OV5640_AWB_CTRL03 : Nat := 0x5183
abbrev OV5640_AWB_CTRL04 : Nat := 0x5184
abbrev OV5640_AWB_CTRL05 : Nat := 0x5185
abbrev OV5640_AWB_CTRL06 : Nat := 0x5186
abbrev OV5640_AWB_CTRL07 : Nat := 0x5187
abbrev OV5640_AWB_CTRL08 : Nat := 0x5188
abbrev OV5640_AWB_CTRL09 : Nat := 0x5189
abbrev OV5640_AWB_CTRL10 : Nat := 0x518a
abbrev OV5640_AWB_CTRL11 : Nat := 0x518b
abbrev OV5640_AWB_CTRL12 : Nat := 0x518c
abbrev OV5640_AWB_CTRL13 : Nat := 0x518d
abbrev OV5640_AWB_CTRL14 : Nat := 0x518e
abbrev OV5640_AWB_CTRL15 : Nat := 0x518f
abbrev OV5640_AWB_CTRL16 : Nat := 0x5190
abbrev OV5640_AWB_CTRL17 : Nat := 0x5191
abbrev OV5640_AWB_CTRL18 : Nat := 0x5192
abbrev OV5640_AWB_CTRL19 : Nat := 0x5193
abbrev OV5640_AWB_CTRL20 : Nat := 0x5194
abbrev OV5640_AWB_CTRL21 : Nat := 0x5195
abbrev OV5640_AWB_CTRL22 : Nat := 0x5196
abbrev OV5640_AWB_CTRL23 : Nat := 0x5197
abbrev OV5640_AWB_CTRL24 : Nat := 0x5198
abbrev OV5640_AWB_CTRL25 : Nat := 0x5199
abbrev OV5640_AWB_CTRL26 : Nat := 0x519a
abbrev OV5640_AWB_CTRL27 : Nat := 0x519b
abbrev OV5640_AWB_CTRL28 : Nat := 0x519c
abbrev OV5640_AWB_CTRL29 : Nat := 0x519d
abbrev OV5640_AWB_CTRL30 : Nat := 0x519e
abbrev OV5640_BLC_CTRL01 : Nat := 0x4001
abbrev OV5640_BLC_CTRL04 : Nat := 0x4004
abbrev OV5640_BRMATRX00 : Nat := 0x5824
abbrev OV5640_BRMATRX01 : Nat := 0x5825
abbrev OV5640_BRMATRX02 : Nat := 0x5826
abbrev OV5640_BRMATRX03 : Nat := 0x5827
abbrev OV5640_BRMATRX04 : Nat := 0x5828
abbrev OV5640_BRMATRX05 : Nat := 0x5829
abbrev OV5640_BRMATRX06 : Nat := 0x582a
abbrev OV5640_BRMATRX07 : Nat := 0x582b
abbrev OV5640_BRMATRX08 : Nat := 0x582c
abbrev OV5640_BRMATRX09 : Nat := 0x582d
abbrev OV5640_BRMATRX20 : Nat := 0x582e
abbrev OV5640_BRMATRX21 : Nat := 0x582f
abbrev OV5640_BRMATRX22 : Nat := 0x5830
abbrev OV5640_BRMATRX23 : Nat := 0x5831
abbrev OV5640_BRMATRX24 : Nat := 0x5832
abbrev OV5640_BRMATRX30 : Nat := 0x5833
abbrev OV5640_BRMATRX31 : Nat := 0x5834
abbrev OV5640_BRMATRX32 : Nat := 0x5835
abbrev OV5640_BRMATRX33 : Nat := 0x5836
abbrev OV5640_BRMATRX34 : Nat := 0x5837
abbrev OV5640_BRMATRX40 : Nat := 0x5838
abbrev OV5640_BRMATRX41 : Nat := 0x5839
abbrev OV5640_BRMATRX42 : Nat := 0x583a
abbrev OV5640_BRMATRX43 : Nat := 0x583b
abbrev OV5640_BRMATRX44 : Nat := 0x583c
abbrev OV5640_CIP_CTRL : Nat := 0x5308
abbrev OV5640_CIP_DNS_OFFSET1 : Nat := 0x5306
abbrev OV5640_CIP_DNS_OFFSET2 : Nat := 0x5307
abbrev OV5640_CIP_DNS_TH1 : Nat := 0x5304
abbrev OV5640_CIP_DNS_TH2 : Nat := 0x5305
abbrev OV5640_CIP_SHARPENMT_OFFSET1 : Nat := 0x5302
abbrev OV5640_CIP_SHARPENMT_OFFSET2 : Nat := 0x5303
abbrev OV5640_CIP_SHARPENMT_TH1 : Nat := 0x5300
abbrev OV5640_CIP_SHARPENMT_TH2 : Nat := 0x5301
abbrev OV5640_CIP_SHARPENTH_OFFSET1 : Nat := 0x530b
abbrev OV5640_CIP_SHARPENTH_TH1 : Nat := 0x5309
abbrev OV5640_CIP_SHARPENTH_TH2 : Nat := 0x530a
abbrev OV5640_CLOCK_ENABLE00 : Nat := 0x3004
abbrev OV5640_CLOCK_ENABLE02 : Nat := 0x3006
abbrev OV5640_CMX1 : Nat := 0x5381
abbrev OV5640_CMX2 : Nat := 0x5382
abbrev OV5640_CMX3 : Nat := 0x5383
abbrev OV5640_CMX4 : Nat := 0x5384
abbrev OV5640_CMX5 : Nat := 0x5385
abbrev OV5640_CMX6 : Nat := 0x5386
abbrev OV5640_CMX7 : Nat := 0x5387
abbrev OV5640_CMX8 : Nat := 0x5388
abbrev OV5640_CMX9 : Nat := 0x5389
abbrev OV5640_CMXSIGN_HIGH : Nat := 0x538a
abbrev OV5640_CMXSIGN_LOW : Nat := 0x538b
abbrev OV5640_FORMAT_CTRL00 : Nat := 0x4300
abbrev OV5640_FORMAT_MUX_CTRL : Nat := 0x501f
abbrev OV5640_FRAME_CTRL02 : Nat := 0x4202
abbrev OV5640_GAMMA_CTRL00 : Nat := 0x5480
abbrev OV5640_GAMMA_YST00 : Nat := 0x5481
abbrev OV5640_GAMMA_YST01 : Nat := 0x5482
abbrev OV5640_GAMMA_YST02 : Nat := 0x5483
abbrev OV5640_GAMMA_YST03 : Nat := 0x5484
abbrev OV5640_GAMMA_YST04 : Nat := 0x5485
abbrev OV5640_GAMMA_YST05 : Nat := 0x5486
abbrev OV5640_GAMMA_YST06 : Nat := 0x5487
abbrev OV5640_GAMMA_YST07 : Nat := 0x5488
abbrev OV5640_GAMMA_YST08 : Nat := 0x5489
abbrev OV5640_GAMMA_YST09 : Nat := 0x548a
abbrev OV5640_GAMMA_YST0A : Nat := 0x548b
abbrev OV5640_GAMMA_YST0B : Nat := 0x548c
abbrev OV5640_GAMMA_YST0C : Nat := 0x548d
abbrev OV5640_GAMMA_YST0D : Nat := 0x548e
abbrev OV5640_GAMMA_YST0E : Nat := 0x548f
abbrev OV5640_GAMMA_YST0F : Nat := 0x5490
abbrev OV5640_GMTRX00 : Nat := 0x5800
abbrev OV5640_GMTRX01 : Nat := 0x5801
abbrev OV5640_GMTRX02 : Nat := 0x5802
abbrev OV5640_GMTRX03 : Nat := 0x5803
abbrev OV5640_GMTRX04 : Nat := 0x5804
abbrev OV5640_GMTRX05 : Nat := 0x5805
abbrev OV5640_GMTRX10 : Nat := 0x5806
abbrev OV5640_GMTRX11 : Nat := 0x5807
abbrev OV5640_GMTRX12 : Nat := 0x5808
abbrev OV5640_GMTRX13 : Nat := 0x5809
abbrev OV5640_GMTRX14 : Nat := 0x580a
abbrev OV5640_GMTRX15 : Nat := 0x580b
abbrev OV5640_GMTRX20 : Nat := 0x580c
abbrev OV5640_GMTRX21 : Nat := 0x580d
abbrev OV5640_GMTRX22 : Nat := 0x580e
abbrev OV5640_GMTRX23 : Nat := 0x580f
abbrev OV5640_GMTRX24 : Nat := 0x5810
abbrev OV5640_GMTRX25 : Nat := 0x5811
abbrev OV5640_GMTRX30 : Nat := 0x5812
abbrev OV5640_GMTRX31 : Nat := 0x5813
abbrev OV5640_GMTRX32 : Nat := 0x5814
abbrev OV5640_GMTRX33 : Nat := 0x5815
abbrev OV5640_GMTRX34 : Nat := 0x5816
abbrev OV5640_GMTRX35 : Nat := 0x5817
abbrev OV5640_GMTRX40 : Nat := 0x5818
abbrev OV5640_GMTRX41 : Nat := 0x5819
abbrev OV5640_GMTRX42 : Nat := 0x581a
abbrev OV5640_GMTRX43 : Nat := 0x581b
abbrev OV5640_GMTRX44 : Nat := 0x581c
abbrev OV5640_GMTRX45 : Nat := 0x581d
abbrev OV5640_GMTRX50 : Nat := 0x581e
abbrev OV5640_GMTRX51 : Nat := 0x581f
abbrev OV5640_GMTRX52 : Nat := 0x5820
abbrev OV5640_GMTRX53 : Nat := 0x5821
abbrev OV5640_GMTRX54 : Nat := 0x5822
abbrev OV5640_GMTRX55 : Nat := 0x5823
abbrev OV5640_ISP_CONTROL00 : Nat := 0x5000
abbrev OV5640_ISP_CONTROL01 : Nat := 0x5001
abbrev OV5640_JPEG_CTRL07 : Nat := 0x4407
abbrev OV5640_JPG_MODE_SELECT : Nat := 0x4713
abbrev OV5640_LENC_BR_OFFSET : Nat := 0x583d
abbrev OV5640_LIGHTMETER1_TH_HIGH : Nat := 0x3c0a
abbrev OV5640_LIGHTMETER1_TH_LOW : Nat := 0x3c0b
abbrev OV5640_LIGHTMETER2_TH_HIGH : Nat := 0x3c0c
abbrev OV5640_LIGHTMETER2_TH_LOW : Nat := 0x3c0d
abbrev OV5640_MIPI_CONTROL00 : Nat := 0x300e
abbrev OV5640_MIPI_CTRL00 : Nat := 0x4800
abbrev OV5640_PCLK_PERIOD : Nat := 0x4837
abbrev OV5640_POLARITY_CTRL : Nat := 0x4740
abbrev OV5640_SAMPLE_NUMBER_HIGH : Nat := 0x3c0e
abbrev OV5640_SAMPLE_NUMBER_LOW : Nat := 0x3c0f
abbrev OV5640_SCCB_SYSTEM_CTRL1 : Nat := 0x3103
abbrev OV5640_SDE_CTRL0 : Nat := 0x5580
abbrev OV5640_SDE_CTRL1 : Nat := 0x5581
abbrev OV5640_SDE_CTRL10 : Nat := 0x558a
abbrev OV5640_SDE_CTRL11 : Nat := 0x558b
abbrev OV5640_SDE_CTRL2 : Nat := 0x5582
abbrev OV5640_SDE_CTRL3 : Nat := 0x5583
abbrev OV5640_SDE_CTRL4 : Nat := 0x5584
abbrev OV5640_SDE_CTRL5 : Nat := 0x5585
abbrev OV5640_SDE_CTRL6 : Nat := 0x5586
abbrev OV5640_SDE_CTRL7 : Nat := 0x5587
abbrev OV5640_SDE_CTRL8 : Nat := 0x5588
abbrev OV5640_SDE_CTRL9 : Nat := 0x5589
abbrev OV5640_SYSREM_RESET00 : Nat := 0x3000
abbrev OV5640_SYSREM_RESET02 : Nat := 0x3002
abbrev OV5640_SYSTEM_CTROL0 : Nat := 0x3008
abbrev OV5640_TIMING_DVPHO_HIGH : Nat := 0x3808
abbrev OV5640_TIMING_DVPHO_LOW : Nat := 0x3809
abbrev OV5640_TIMING_DVPVO_HIGH : Nat := 0x380a
abbrev OV5640_TIMING_DVPVO_LOW : Nat := 0x380b
abbrev OV5640_TIMING_HOFFSET_HIGH : Nat := 0x3810
abbrev OV5640_TIMING_HOFFSET_LOW : Nat := 0x3811
abbrev OV5640_TIMING_HS_HIGH : Nat := 0x3800
abbrev OV5640_TIMING_HS_LOW : Nat := 0x3801
abbrev OV5640_TIMING_HTS_HIGH : Nat := 0x380c
abbrev OV5640_TIMING_HTS_LOW : Nat := 0x380d
abbrev OV5640_TIMING_HW_HIGH : Nat := 0x3804
abbrev OV5640_TIMING_HW_LOW : Nat := 0x3805
abbrev OV5640_TIMING_TC_REG20 : Nat := 0x3820
abbrev OV5640_TIMING_TC_REG21 : Nat := 0x3821
abbrev OV5640_TIMING_VH_HIGH : Nat := 0x3806
abbrev OV5640_TIMING_VH_LOW : Nat := 0x3807
abbrev OV5640_TIMING_VOFFSET_HIGH : Nat := 0x3812
abbrev OV5640_TIMING_VOFFSET_LOW : Nat := 0x3813
abbrev OV5640_TIMING_VS_HIGH : Nat := 0x3802
abbrev OV5640_TIMING_VS_LOW : Nat := 0x3803
abbrev OV5640_TIMING_VTS_HIGH : Nat := 0x380e
abbrev OV5640_TIMING_VTS_LOW : Nat := 0x380f
abbrev OV5640_TIMING_X_INC : Nat := 0x3814
abbrev OV5640_TIMING_Y_INC : Nat := 0x3815

/-- The ~246-entry common register table OV5640_Common of OV5640_Init
(src/ov5640.c lines 139-387), entries in source order. -/
def OV5640_Common : List (Nat × Nat) := [
  (OV5640_SCCB_SYSTEM_CTRL1, 0x11),
  (OV5640_SYSTEM_CTROL0, 0x82),
  (OV5640_SCCB_SYSTEM_CTRL1, 0x03),
  (0x3630, 0x36),
  (0x3631, 0x0e),
  (0x3632, 0xe2),
  (0x3633, 0x12),
  (0x3621, 0xe0),
  (0x3704, 0xa0),
  (0x3703, 0x5a),
  (0x3715, 0x78),
  (0x3717, 0x01),
  (0x370b, 0x60),
  (0x3705, 0x1a),
  (0x3905, 0x02),
  (0x3906, 0x10),
  (0x3901, 0x0a),
  (0x3731, 0x12),
  (0x3600, 0x08),
  (0x3601, 0x33),
  (0x302d, 0x60),
  (0x3620, 0x52),
  (0x371b, 0x20),
  (0x471c, 0x50),
  (OV5640_AEC_CTRL13, 0x43),
  (OV5640_AEC_GAIN_CEILING_HIGH, 0x00),
  (OV5640_AEC_GAIN_CEILING_LOW, 0xf8),
  (0x3635, 0x13),
  (0x3636, 0x03),
  (0x3634, 0x40),
  (0x3622, 0x01),
  (OV5640_5060HZ_CTRL01, 0x34),
  (OV5640_5060HZ_CTRL04, 0x28),
  (OV5640_5060HZ_CTRL05, 0x98),
  (OV5640_LIGHTMETER1_TH_HIGH, 0x00),
  (OV5640_LIGHTMETER1_TH_LOW, 0x00),
  (OV5640_LIGHTMETER2_TH_HIGH, 0x01),
  (OV5640_LIGHTMETER2_TH_LOW, 0x2c),
  (OV5640_SAMPLE_NUMBER_HIGH, 0x9c),
  (OV5640_SAMPLE_NUMBER_LOW, 0x40),
  (OV5640_TIMING_TC_REG20, 0x06),
  (OV5640_TIMING_TC_REG21, 0x00),
  (OV5640_TIMING_X_INC, 0x31),
  (OV5640_TIMING_Y_INC, 0x31),
  (OV5640_TIMING_HS_HIGH, 0x00),
  (OV5640_TIMING_HS_LOW, 0x00),
  (OV5640_TIMING_VS_HIGH, 0x00),
  (OV5640_TIMING_VS_LOW, 0x04),
  (OV5640_TIMING_HW_HIGH, 0x0a),
  (OV5640_TIMING_HW_LOW, 0x3f),
  (OV5640_TIMING_VH_HIGH, 0x07),
  (OV5640_TIMING_VH_LOW, 0x9b),
  (OV5640_TIMING_DVPHO_HIGH, 0x03),
  (OV5640_TIMING_DVPHO_LOW, 0x20),
  (OV5640_TIMING_DVPVO_HIGH, 0x02),
  (OV5640_TIMING_DVPVO_LOW, 0x58),
  (OV5640_TIMING_HTS_HIGH, 0x07),
  (OV5640_TIMING_HTS_LOW, 0x90),
  (OV5640_TIMING_VTS_HIGH, 0x04),
  (OV5640_TIMING_VTS_LOW, 0x40),
  (OV5640_TIMING_HOFFSET_HIGH, 0x00),
  (OV5640_TIMING_HOFFSET_LOW, 0x10),
  (OV5640_TIMING_VOFFSET_HIGH, 0x00),
  (OV5640_TIMING_VOFFSET_LOW, 0x06),
  (0x3618, 0x00),
  (0x3612, 0x29),
  (0x3708, 0x64),
  (0x3709, 0x52),
  (0x370c, 0x03),
  (OV5640_AEC_CTRL02, 0x03),
  (OV5640_AEC_CTRL03, 0xd8),
  (OV5640_AEC_B50_STEP_HIGH, 0x01),
  (OV5640_AEC_B50_STEP_LOW, 0x27),
  (OV5640_AEC_B60_STEP_HIGH, 0x00),
  (OV5640_AEC_B60_STEP_LOW, 0xf6),
  (OV5640_AEC_CTRL0E, 0x03),
  (OV5640_AEC_CTRL0D, 0x04),
  (OV5640_AEC_MAX_EXPO_HIGH, 0x03),
  (OV5640_AEC_MAX_EXPO_LOW, 0xd8),
  (OV5640_BLC_CTRL01, 0x02),
  (OV5640_BLC_CTRL04, 0x02),
  (OV5640_SYSREM_RESET00, 0x00),
  (OV5640_SYSREM_RESET02, 0x1c),
  (OV5640_CLOCK_ENABLE00, 0xff),
  (OV5640_CLOCK_ENABLE02, 0xc3),
  (OV5640_MIPI_CONTROL00, 0x58),
  (0x302e, 0x00),
  (OV5640_POLARITY_CTRL, 0x22),
  (OV5640_FORMAT_CTRL00, 0x6f),
  (OV5640_FORMAT_MUX_CTRL, 0x01),
  (OV5640_JPG_MODE_SELECT, 0x03),
  (OV5640_JPEG_CTRL07, 0x04),
  (0x440e, 0x00),
  (0x460b, 0x35),
  (0x460c, 0x23),
  (OV5640_PCLK_PERIOD, 0x22),
  (0x3824, 0x02),
  (OV5640_ISP_CONTROL00, 0xa7),
  (OV5640_ISP_CONTROL01, 0xa3),
  (OV5640_AWB_CTRL00, 0xff),
  (OV5640_AWB_CTRL01, 0xf2),
  (OV5640_AWB_CTRL02, 0x00),
  (OV5640_AWB_CTRL03, 0x14),
  (OV5640_AWB_CTRL04, 0x25),
  (OV5640_AWB_CTRL05, 0x24),
  (OV5640_AWB_CTRL06, 0x09),
  (OV5640_AWB_CTRL07, 0x09),
  (OV5640_AWB_CTRL08, 0x09),
  (OV5640_AWB_CTRL09, 0x75),
  (OV5640_AWB_CTRL10, 0x54),
  (OV5640_AWB_CTRL11, 0xe0),
  (OV5640_AWB_CTRL12, 0xb2),
  (OV5640_AWB_CTRL13, 0x42),
  (OV5640_AWB_CTRL14, 0x3d),
  (OV5640_AWB_CTRL15, 0x56),
  (OV5640_AWB_CTRL16, 0x46),
  (OV5640_AWB_CTRL17, 0xf8),
  (OV5640_AWB_CTRL18, 0x04),
  (OV5640_AWB_CTRL19, 0x70),
  (OV5640_AWB_CTRL20, 0xf0),
  (OV5640_AWB_CTRL21, 0xf0),
  (OV5640_AWB_CTRL22, 0x03),
  (OV5640_AWB_CTRL23, 0x01),
  (OV5640_AWB_CTRL24, 0x04),
  (OV5640_AWB_CTRL25, 0x12),
  (OV5640_AWB_CTRL26, 0x04),
  (OV5640_AWB_CTRL27, 0x00),
  (OV5640_AWB_CTRL28, 0x06),
  (OV5640_AWB_CTRL29, 0x82),
  (OV5640_AWB_CTRL30, 0x38),
  (OV5640_CMX1, 0x1e),
  (OV5640_CMX2, 0x5b),
  (OV5640_CMX3, 0x08),
  (OV5640_CMX4, 0x0a),
  (OV5640_CMX5, 0x7e),
  (OV5640_CMX6, 0x88),
  (OV5640_CMX7, 0x7c),
  (OV5640_CMX8, 0x6c),
  (OV5640_CMX9, 0x10),
  (OV5640_CMXSIGN_HIGH, 0x01),
  (OV5640_CMXSIGN_LOW, 0x98),
  (OV5640_CIP_SHARPENMT_TH1, 0x08),
  (OV5640_CIP_SHARPENMT_TH2, 0x30),
  (OV5640_CIP_SHARPENMT_OFFSET1, 0x10),
  (OV5640_CIP_SHARPENMT_OFFSET2, 0x00),
  (OV5640_CIP_DNS_TH1, 0x08),
  (OV5640_CIP_DNS_TH2, 0x30),
  (OV5640_CIP_DNS_OFFSET1, 0x08),
  (OV5640_CIP_DNS_OFFSET2, 0x16),
  (OV5640_CIP_CTRL, 0x08),
  (OV5640_CIP_SHARPENTH_TH1, 0x30),
  (OV5640_CIP_SHARPENTH_TH2, 0x04),
  (OV5640_CIP_SHARPENTH_OFFSET1, 0x06),
  (OV5640_GAMMA_CTRL00, 0x01),
  (OV5640_GAMMA_YST00, 0x08),
  (OV5640_GAMMA_YST01, 0x14),
  (OV5640_GAMMA_YST02, 0x28),
  (OV5640_GAMMA_YST03, 0x51),
  (OV5640_GAMMA_YST04, 0x65),
  (OV5640_GAMMA_YST05, 0x71),
  (OV5640_GAMMA_YST06, 0x7d),
  (OV5640_GAMMA_YST07, 0x87),
  (OV5640_GAMMA_YST08, 0x91),
  (OV5640_GAMMA_YST09, 0x9a),
  (OV5640_GAMMA_YST0A, 0xaa),
  (OV5640_GAMMA_YST0B, 0xb8),
  (OV5640_GAMMA_YST0C, 0xcd),
  (OV5640_GAMMA_YST0D, 0xdd),
  (OV5640_GAMMA_YST0E, 0xea),
  (OV5640_GAMMA_YST0F, 0x1d),
  (OV5640_SDE_CTRL0, 0x02),
  (OV5640_SDE_CTRL3, 0x40),
  (OV5640_SDE_CTRL4, 0x10),
  (OV5640_SDE_CTRL9, 0x10),
  (OV5640_SDE_CTRL10, 0x00),
  (OV5640_SDE_CTRL11, 0xf8),
  (OV5640_GMTRX00, 0x23),
  (OV5640_GMTRX01, 0x14),
  (OV5640_GMTRX02, 0x0f),
  (OV5640_GMTRX03, 0x0f),
  (OV5640_GMTRX04, 0x12),
  (OV5640_GMTRX05, 0x26),
  (OV5640_GMTRX10, 0x0c),
  (OV5640_GMTRX11, 0x08),
  (OV5640_GMTRX12, 0x05),
  (OV5640_GMTRX13, 0x05),
  (OV5640_GMTRX14, 0x08),
  (OV5640_GMTRX15, 0x0d),
  (OV5640_GMTRX20, 0x08),
  (OV5640_GMTRX21, 0x03),
  (OV5640_GMTRX22, 0x00),
  (OV5640_GMTRX23, 0x00),
  (OV5640_GMTRX24, 0x03),
  (OV5640_GMTRX25, 0x09),
  (OV5640_GMTRX30, 0x07),
  (OV5640_GMTRX31, 0x03),
  (OV5640_GMTRX32, 0x00),
  (OV5640_GMTRX33, 0x01),
  (OV5640_GMTRX34, 0x03),
  (OV5640_GMTRX35, 0x08),
  (OV5640_GMTRX40, 0x0d),
  (OV5640_GMTRX41, 0x08),
  (OV5640_GMTRX42, 0x05),
  (OV5640_GMTRX43, 0x06),
  (OV5640_GMTRX44, 0x08),
  (OV5640_GMTRX45, 0x0e),
  (OV5640_GMTRX50, 0x29),
  (OV5640_GMTRX51, 0x17),
  (OV5640_GMTRX52, 0x11),
  (OV5640_GMTRX53, 0x11),
  (OV5640_GMTRX54, 0x15),
  (OV5640_GMTRX55, 0x28),
  (OV5640_BRMATRX00, 0x46),
  (OV5640_BRMATRX01, 0x26),
  (OV5640_BRMATRX02, 0x08),
  (OV5640_BRMATRX03, 0x26),
  (OV5640_BRMATRX04, 0x64),
  (OV5640_BRMATRX05, 0x26),
  (OV5640_BRMATRX06, 0x24),
  (OV5640_BRMATRX07, 0x22),
  (OV5640_BRMATRX08, 0x24),
  (OV5640_BRMATRX09, 0x24),
  (OV5640_BRMATRX20, 0x06),
  (OV5640_BRMATRX21, 0x22),
  (OV5640_BRMATRX22, 0x40),
  (OV5640_BRMATRX23, 0x42),
  (OV5640_BRMATRX24, 0x24),
  (OV5640_BRMATRX30, 0x26),
  (OV5640_BRMATRX31, 0x24),
  (OV5640_BRMATRX32, 0x22),
  (OV5640_BRMATRX33, 0x22),
  (OV5640_BRMATRX34, 0x26),
  (OV5640_BRMATRX40, 0x44),
  (OV5640_BRMATRX41, 0x24),
  (OV5640_BRMATRX42, 0x26),
  (OV5640_BRMATRX43, 0x28),
  (OV5640_BRMATRX44, 0x42),
  (OV5640_LENC_BR_OFFSET, 0xce),
  (0x5025, 0x00),
  (OV5640_AEC_CTRL0F, 0x30),
  (OV5640_AEC_CTRL10, 0x28),
  (OV5640_AEC_CTRL1B, 0x30),
  (OV5640_AEC_CTRL1E, 0x26),
  (OV5640_AEC_CTRL11, 0x60),
  (OV5640_AEC_CTRL1F, 0x14),
  (OV5640_SYSTEM_CTROL0, 0x02)]

/-- The JPEG-mode register table OV5640_jpeg_reg_tbl (src/ov5640.c lines
2218-2263), entries in source order. -/
def OV5640_jpeg_reg_tbl : List (Nat × Nat) := [
  (0x4300, 0x30),
  (0x501f, 0x00),
  (0x3035, 0x21),
  (0x3036, 0x69),
  (0x3c07, 0x07),
  (0x3820, 0x46),
  (0x3821, 0x20),
  (0x3814, 0x11),
  (0x3815, 0x11),
  (0x3800, 0x00),
  (0x3801, 0x00),
  (0x3802, 0x00),
  (0x3803, 0x00),
  (0x3804, 0x0a),
  (0x3805, 0x3f),
  (0x3806, 0x07),
  (0x3807, 0x9f),
  (0x3808, 0x02),
  (0x3809, 0x80),
  (0x380a, 0x01),
  (0x380b, 0xe0),
  (0x380c, 0x0b),
  (0x380d, 0x1c),
  (0x380e, 0x07),
  (0x380f, 0xb0),
  (0x3813, 0x04),
  (0x3618, 0x04),
  (0x3612, 0x2b),
  (0x3709, 0x12),
  (0x370c, 0x00),
  (0x4004, 0x06),
  (0x3002, 0x00),
  (0x3006, 0xff),
  (0x4713, 0x03),
  (0x4407, 0x01),
  (0x460b, 0x35),
  (0x460c, 0x22),
  (0x4837, 0x16),
  (0x3824, 0x02),
  (0x5001, 0xa3),
  (0x3503, 0x00)]

/-- Pixel-format register table for RGB565 (OV5640_SetPixelFormat). -/
def OV5640_PF_RGB565 : List (Nat × Nat) := [
  (OV5640_FORMAT_CTRL00, 0x6F),
  (OV5640_FORMAT_MUX_CTRL, 0x01)]

/-- Pixel-format register table for YUV422 (OV5640_SetPixelFormat). -/
def OV5640_PF_YUV422 : List (Nat × Nat) := [
  (OV5640_FORMAT_CTRL00, 0x30),
  (OV5640_FORMAT_MUX_CTRL, 0x00)]

/-- Pixel-format register table for RGB888 (OV5640_SetPixelFormat). -/
def OV5640_PF_RGB888 : List (Nat × Nat) := [
  (OV5640_FORMAT_CTRL00, 0x23),
  (OV5640_FORMAT_MUX_CTRL, 0x01)]

/-- Pixel-format register table for monochrome Y8 (OV5640_SetPixelFormat). -/
def OV5640_PF_Y8 : List (Nat × Nat) := [
  (OV5640_FORMAT_CTRL00, 0x10),
  (OV5640_FORMAT_MUX_CTRL, 0x00)]

/-- Pixel-format register table for JPEG (OV5640_SetPixelFormat). -/
def OV5640_PF_JPEG : List (Nat × Nat) := [
  (OV5640_FORMAT_CTRL00, 0x30),
  (OV5640_FORMAT_MUX_CTRL, 0x00)]

/-- Output-size register table for 800x480 (OV5640_SetResolution). -/
def OV5640_WVGA : List (Nat × Nat) := [
  (OV5640_TIMING_DVPHO_HIGH, 0x03),
  (OV5640_TIMING_DVPHO_LOW, 0x20),
  (OV5640_TIMING_DVPVO_HIGH, 0x01),
  (OV5640_TIMING_DVPVO_LOW, 0xE0)]

/-- Output-size register table for 640x480 (OV5640_SetResolution). -/
def OV5640_VGA : List (Nat × Nat) := [
  (OV5640_TIMING_DVPHO_HIGH, 0x02),
  (OV5640_TIMING_DVPHO_LOW, 0x80),
  (OV5640_TIMING_DVPVO_HIGH, 0x01),
  (OV5640_TIMING_DVPVO_LOW, 0xE0)]

/-- Output-size register table for 480x272 (OV5640_SetResolution). -/
def OV5640_480x272 : List (Nat × Nat) := [
  (OV5640_TIMING_DVPHO_HIGH, 0x01),
  (OV5640_TIMING_DVPHO_LOW, 0xE0),
  (OV5640_TIMING_DVPVO_HIGH, 0x01),
  (OV5640_TIMING_DVPVO_LOW, 0x10)]

/-- Output-size register table for 320x240 (OV5640_SetResolution). -/
def OV5640_QVGA : List (Nat × Nat) := [
  (OV5640_TIMING_DVPHO_HIGH, 0x01),
  (OV5640_TIMING_DVPHO_LOW, 0x40),
  (OV5640_TIMING_DVPVO_HIGH, 0x00),
  (OV5640_TIMING_DVPVO_LOW, 0xF0)]

/-- Output-size register table for 160x120 (OV5640_SetResolution). -/
def OV5640_QQVGA : List (Nat × Nat) := [
  (OV5640_TIMING_DVPHO_HIGH, 0x00),
  (OV5640_TIMING_DVPHO_LOW, 0xA0),
  (OV5640_TIMING_DVPVO_HIGH, 0x00),
  (OV5640_TIMING_DVPVO_LOW, 0x78)]
/-- Modelled from the spec: register-address constant (datasheet), missing
header ov5640.h. -/
abbrev OV5640_PAD_OUTPUT_ENABLE01 : Nat := 0x3017

/-- Modelled from the spec: register-address constant (datasheet). -/
abbrev OV5640_PAD_OUTPUT_ENABLE02 : Nat := 0x3018

/-- Modelled from the spec: register-address constant (datasheet). -/
abbrev OV5640_PAD_OUTPUT_VALUE00 : Nat := 0x3019

/-- Modelled from the spec: register-address constant (datasheet). -/
abbrev OV5640_SC_PLL_CONTRL0 : Nat := 0x3034

/-- Modelled from the spec: register-address constant (datasheet). -/
abbrev OV5640_SC_PLL_CONTRL1 : Nat := 0x3035

/-- Modelled from the spec: register-address constant (datasheet). -/
abbrev OV5640_SC_PLL_CONTRL2 : Nat := 0x3036

/-- Modelled from the spec: register-address constant (datasheet). -/
abbrev OV5640_SC_PLL_CONTRL3 : Nat := 0x3037

/-- Modelled from the spec: register-address constant (datasheet). -/
abbrev OV5640_SYSTEM_ROOT_DIVIDER : Nat := 0x3108

/-- The DVP pad/PLL register list of OV5640_EnableDVPMode (src/ov5640.c
lines 1798-1812). -/
def OV5640_DVP_regs : List (Nat × Nat) := [
  (OV5640_PAD_OUTPUT_ENABLE01, 0xFF),
  (OV5640_PAD_OUTPUT_ENABLE02, 0xF3),
  (0x302e, 0x00),
  (0x471c, 0x50),
  (OV5640_MIPI_CONTROL00, 0x58),
  (OV5640_SC_PLL_CONTRL0, 0x18),
  (OV5640_SC_PLL_CONTRL1, 0x41),
  (OV5640_SC_PLL_CONTRL2, 0x60),
  (OV5640_SC_PLL_CONTRL3, 0x13),
  (OV5640_SYSTEM_ROOT_DIVIDER, 0x01)]

/-- The MIPI timing/PLL register list of OV5640_EnableMIPIMode
(src/ov5640.c lines 1861-1880). -/
def OV5640_MIPI_regs : List (Nat × Nat) := [
  (OV5640_PAD_OUTPUT_ENABLE01, 0),
  (OV5640_PAD_OUTPUT_ENABLE02, 0),
  (0x302e, 0x08),
  (OV5640_PCLK_PERIOD, 0x23),
  (OV5640_SC_PLL_CONTRL0, 0x18),
  (OV5640_SC_PLL_CONTRL1, 0x12),
  (OV5640_SC_PLL_CONTRL2, 0x1C),
  (OV5640_SC_PLL_CONTRL3, 0x13),
  (OV5640_SYSTEM_ROOT_DIVIDER, 0x01),
  (0x4814, 0x2a),
  (OV5640_MIPI_CTRL00, 0x24),
  (OV5640_PAD_OUTPUT_VALUE00, 0x70),
  (OV5640_MIPI_CONTROL00, 0x45),
  (OV5640_FRAME_CTRL02, 0x00)]

/-- The one-entry halt-command table `datas` of OV5640_Focus_Init
(src/ov5640.c lines 2757-2759). -/
def OV5640_Focus_Init_datas : List (Nat × Nat) := [
  (0x3000, 0x20)]

/-- The nine-entry release/handshake table `datas2` of OV5640_Focus_Init
(src/ov5640.c lines 2761-2771).  Note that the release loop in the source
iterates sizeof(datas2)/4 times but indexes `datas`, not `datas2`. -/
def OV5640_Focus_Init_datas2 : List (Nat × Nat) := [
  (0x3022, 0x00),
  (0x3023, 0x00),
  (0x3024, 0x00),
  (0x3025, 0x00),
  (0x3026, 0x00),
  (0x3027, 0x00),
  (0x3028, 0x00),
  (0x3029, 0x7f),
  (0x3000, 0x00)]

set_option maxHeartbeats 1600000 in
/-- The autofocus firmware/constants blob OV5640_AF_Config (src/ov5640.c
lines 2336-2592), 4077 bytes uploaded byte-by-byte by
OV5640_Focus_Init. -/
def OV5640_AF_Config : List Nat := [
  0x02, 0x0f, 0xd6, 0x02, 0x0a, 0x39, 0xc2, 0x01, 0x22, 0x22, 0x00, 0x02, 0x0f, 0xb2, 0xe5, 0x1f,
  0x70, 0x72, 0xf5, 0x1e, 0xd2, 0x35, 0xff, 0xef, 0x25, 0xe0, 0x24, 0x4e, 0xf8, 0xe4, 0xf6, 0x08,
  0xf6, 0x0f, 0xbf, 0x34, 0xf2, 0x90, 0x0e, 0x93, 0xe4, 0x93, 0xff, 0xe5, 0x4b, 0xc3, 0x9f, 0x50,
  0x04, 0x7f, 0x05, 0x80, 0x02, 0x7f, 0xfb, 0x78, 0xbd, 0xa6, 0x07, 0x12, 0x0f, 0x04, 0x40, 0x04,
  0x7f, 0x03, 0x80, 0x02, 0x7f, 0x30, 0x78, 0xbc, 0xa6, 0x07, 0xe6, 0x18, 0xf6, 0x08, 0xe6, 0x78,
  0xb9, 0xf6, 0x78, 0xbc, 0xe6, 0x78, 0xba, 0xf6, 0x78, 0xbf, 0x76, 0x33, 0xe4, 0x08, 0xf6, 0x78,
  0xb8, 0x76, 0x01, 0x75, 0x4a, 0x02, 0x78, 0xb6, 0xf6, 0x08, 0xf6, 0x74, 0xff, 0x78, 0xc1, 0xf6,
  0x08, 0xf6, 0x75, 0x1f, 0x01, 0x78, 0xbc, 0xe6, 0x75, 0xf0, 0x05, 0xa4, 0xf5, 0x4b, 0x12, 0x0a,
  0xff, 0xc2, 0x37, 0x22, 0x78, 0xb8, 0xe6, 0xd3, 0x94, 0x00, 0x40, 0x02, 0x16, 0x22, 0xe5, 0x1f,
  0xb4, 0x05, 0x23, 0xe4, 0xf5, 0x1f, 0xc2, 0x01, 0x78, 0xb6, 0xe6, 0xfe, 0x08, 0xe6, 0xff, 0x78,
  0x4e, 0xa6, 0x06, 0x08, 0xa6, 0x07, 0xa2, 0x37, 0xe4, 0x33, 0xf5, 0x3c, 0x90, 0x30, 0x28, 0xf0,
  0x75, 0x1e, 0x10, 0xd2, 0x35, 0x22, 0xe5, 0x4b, 0x75, 0xf0, 0x05, 0x84, 0x78, 0xbc, 0xf6, 0x90,
  0x0e, 0x8c, 0xe4, 0x93, 0xff, 0x25, 0xe0, 0x24, 0x0a, 0xf8, 0xe6, 0xfc, 0x08, 0xe6, 0xfd, 0x78,
  0xbc, 0xe6, 0x25, 0xe0, 0x24, 0x4e, 0xf8, 0xa6, 0x04, 0x08, 0xa6, 0x05, 0xef, 0x12, 0x0f, 0x0b,
  0xd3, 0x78, 0xb7, 0x96, 0xee, 0x18, 0x96, 0x40, 0x0d, 0x78, 0xbc, 0xe6, 0x78, 0xb9, 0xf6, 0x78,
  0xb6, 0xa6, 0x06, 0x08, 0xa6, 0x07, 0x90, 0x0e, 0x8c, 0xe4, 0x93, 0x12, 0x0f, 0x0b, 0xc3, 0x78,
  0xc2, 0x96, 0xee, 0x18, 0x96, 0x50, 0x0d, 0x78, 0xbc, 0xe6, 0x78, 0xba, 0xf6, 0x78, 0xc1, 0xa6,
  0x06, 0x08, 0xa6, 0x07, 0x78, 0xb6, 0xe6, 0xfe, 0x08, 0xe6, 0xc3, 0x78, 0xc2, 0x96, 0xff, 0xee,
  0x18, 0x96, 0x78, 0xc3, 0xf6, 0x08, 0xa6, 0x07, 0x90, 0x0e, 0x95, 0xe4, 0x18, 0x12, 0x0e, 0xe9,
  0x40, 0x02, 0xd2, 0x37, 0x78, 0xbc, 0xe6, 0x08, 0x26, 0x08, 0xf6, 0xe5, 0x1f, 0x64, 0x01, 0x70,
  0x4a, 0xe6, 0xc3, 0x78, 0xc0, 0x12, 0x0e, 0xdf, 0x40, 0x05, 0x12, 0x0e, 0xda, 0x40, 0x39, 0x12,
  0x0f, 0x02, 0x40, 0x04, 0x7f, 0xfe, 0x80, 0x02, 0x7f, 0x02, 0x78, 0xbd, 0xa6, 0x07, 0x78, 0xb9,
  0xe6, 0x24, 0x03, 0x78, 0xbf, 0xf6, 0x78, 0xb9, 0xe6, 0x24, 0xfd, 0x78, 0xc0, 0xf6, 0x12, 0x0f,
  0x02, 0x40, 0x06, 0x78, 0xc0, 0xe6, 0xff, 0x80, 0x04, 0x78, 0xbf, 0xe6, 0xff, 0x78, 0xbe, 0xa6,
  0x07, 0x75, 0x1f, 0x02, 0x78, 0xb8, 0x76, 0x01, 0x02, 0x02, 0x4a, 0xe5, 0x1f, 0x64, 0x02, 0x60,
  0x03, 0x02, 0x02, 0x2a, 0x78, 0xbe, 0xe6, 0xff, 0xc3, 0x78, 0xc0, 0x12, 0x0e, 0xe0, 0x40, 0x08,
  0x12, 0x0e, 0xda, 0x50, 0x03, 0x02, 0x02, 0x28, 0x12, 0x0f, 0x02, 0x40, 0x04, 0x7f, 0xff, 0x80,
  0x02, 0x7f, 0x01, 0x78, 0xbd, 0xa6, 0x07, 0x78, 0xb9, 0xe6, 0x04, 0x78, 0xbf, 0xf6, 0x78, 0xb9,
  0xe6, 0x14, 0x78, 0xc0, 0xf6, 0x18, 0x12, 0x0f, 0x04, 0x40, 0x04, 0xe6, 0xff, 0x80, 0x02, 0x7f,
  0x00, 0x78, 0xbf, 0xa6, 0x07, 0xd3, 0x08, 0xe6, 0x64, 0x80, 0x94, 0x80, 0x40, 0x04, 0xe6, 0xff,
  0x80, 0x02, 0x7f, 0x00, 0x78, 0xc0, 0xa6, 0x07, 0xc3, 0x18, 0xe6, 0x64, 0x80, 0x94, 0xb3, 0x50,
  0x04, 0xe6, 0xff, 0x80, 0x02, 0x7f, 0x33, 0x78, 0xbf, 0xa6, 0x07, 0xc3, 0x08, 0xe6, 0x64, 0x80,
  0x94, 0xb3, 0x50, 0x04, 0xe6, 0xff, 0x80, 0x02, 0x7f, 0x33, 0x78, 0xc0, 0xa6, 0x07, 0x12, 0x0f,
  0x02, 0x40, 0x06, 0x78, 0xc0, 0xe6, 0xff, 0x80, 0x04, 0x78, 0xbf, 0xe6, 0xff, 0x78, 0xbe, 0xa6,
  0x07, 0x75, 0x1f, 0x03, 0x78, 0xb8, 0x76, 0x01, 0x80, 0x20, 0xe5, 0x1f, 0x64, 0x03, 0x70, 0x26,
  0x78, 0xbe, 0xe6, 0xff, 0xc3, 0x78, 0xc0, 0x12, 0x0e, 0xe0, 0x40, 0x05, 0x12, 0x0e, 0xda, 0x40,
  0x09, 0x78, 0xb9, 0xe6, 0x78, 0xbe, 0xf6, 0x75, 0x1f, 0x04, 0x78, 0xbe, 0xe6, 0x75, 0xf0, 0x05,
  0xa4, 0xf5, 0x4b, 0x02, 0x0a, 0xff, 0xe5, 0x1f, 0xb4, 0x04, 0x10, 0x90, 0x0e, 0x94, 0xe4, 0x78,
  0xc3, 0x12, 0x0e, 0xe9, 0x40, 0x02, 0xd2, 0x37, 0x75, 0x1f, 0x05, 0x22, 0x30, 0x01, 0x03, 0x02,
  0x04, 0xc0, 0x30, 0x02, 0x03, 0x02, 0x04, 0xc0, 0x90, 0x51, 0xa5, 0xe0, 0x78, 0x93, 0xf6, 0xa3,
  0xe0, 0x08, 0xf6, 0xa3, 0xe0, 0x08, 0xf6, 0xe5, 0x1f, 0x70, 0x3c, 0x75, 0x1e, 0x20, 0xd2, 0x35,
  0x12, 0x0c, 0x7a, 0x78, 0x7e, 0xa6, 0x06, 0x08, 0xa6, 0x07, 0x78, 0x8b, 0xa6, 0x09, 0x18, 0x76,
  0x01, 0x12, 0x0c, 0x5b, 0x78, 0x4e, 0xa6, 0x06, 0x08, 0xa6, 0x07, 0x78, 0x8b, 0xe6, 0x78, 0x6e,
  0xf6, 0x75, 0x1f, 0x01, 0x78, 0x93, 0xe6, 0x78, 0x90, 0xf6, 0x78, 0x94, 0xe6, 0x78, 0x91, 0xf6,
  0x78, 0x95, 0xe6, 0x78, 0x92, 0xf6, 0x22, 0x79, 0x90, 0xe7, 0xd3, 0x78, 0x93, 0x96, 0x40, 0x05,
  0xe7, 0x96, 0xff, 0x80, 0x08, 0xc3, 0x79, 0x93, 0xe7, 0x78, 0x90, 0x96, 0xff, 0x78, 0x88, 0x76,
  0x00, 0x08, 0xa6, 0x07, 0x79, 0x91, 0xe7, 0xd3, 0x78, 0x94, 0x96, 0x40, 0x05, 0xe7, 0x96, 0xff,
  0x80, 0x08, 0xc3, 0x79, 0x94, 0xe7, 0x78, 0x91, 0x96, 0xff, 0x12, 0x0c, 0x8e, 0x79, 0x92, 0xe7,
  0xd3, 0x78, 0x95, 0x96, 0x40, 0x05, 0xe7, 0x96, 0xff, 0x80, 0x08, 0xc3, 0x79, 0x95, 0xe7, 0x78,
  0x92, 0x96, 0xff, 0x12, 0x0c, 0x8e, 0x12, 0x0c, 0x5b, 0x78, 0x8a, 0xe6, 0x25, 0xe0, 0x24, 0x4e,
  0xf8, 0xa6, 0x06, 0x08, 0xa6, 0x07, 0x78, 0x8a, 0xe6, 0x24, 0x6e, 0xf8, 0xa6, 0x09, 0x78, 0x8a,
  0xe6, 0x24, 0x01, 0xff, 0xe4, 0x33, 0xfe, 0xd3, 0xef, 0x94, 0x0f, 0xee, 0x64, 0x80, 0x94, 0x80,
  0x40, 0x04, 0x7f, 0x00, 0x80, 0x05, 0x78, 0x8a, 0xe6, 0x04, 0xff, 0x78, 0x8a, 0xa6, 0x07, 0xe5,
  0x1f, 0xb4, 0x01, 0x0a, 0xe6, 0x60, 0x03, 0x02, 0x04, 0xc0, 0x75, 0x1f, 0x02, 0x22, 0x12, 0x0c,
  0x7a, 0x78, 0x80, 0xa6, 0x06, 0x08, 0xa6, 0x07, 0x12, 0x0c, 0x7a, 0x78, 0x82, 0xa6, 0x06, 0x08,
  0xa6, 0x07, 0x78, 0x6e, 0xe6, 0x78, 0x8c, 0xf6, 0x78, 0x6e, 0xe6, 0x78, 0x8d, 0xf6, 0x7f, 0x01,
  0xef, 0x25, 0xe0, 0x24, 0x4f, 0xf9, 0xc3, 0x78, 0x81, 0xe6, 0x97, 0x18, 0xe6, 0x19, 0x97, 0x50,
  0x0a, 0x12, 0x0c, 0x82, 0x78, 0x80, 0xa6, 0x04, 0x08, 0xa6, 0x05, 0x74, 0x6e, 0x2f, 0xf9, 0x78,
  0x8c, 0xe6, 0xc3, 0x97, 0x50, 0x08, 0x74, 0x6e, 0x2f, 0xf8, 0xe6, 0x78, 0x8c, 0xf6, 0xef, 0x25,
  0xe0, 0x24, 0x4f, 0xf9, 0xd3, 0x78, 0x83, 0xe6, 0x97, 0x18, 0xe6, 0x19, 0x97, 0x40, 0x0a, 0x12,
  0x0c, 0x82, 0x78, 0x82, 0xa6, 0x04, 0x08, 0xa6, 0x05, 0x74, 0x6e, 0x2f, 0xf9, 0x78, 0x8d, 0xe6,
  0xd3, 0x97, 0x40, 0x08, 0x74, 0x6e, 0x2f, 0xf8, 0xe6, 0x78, 0x8d, 0xf6, 0x0f, 0xef, 0x64, 0x10,
  0x70, 0x9e, 0xc3, 0x79, 0x81, 0xe7, 0x78, 0x83, 0x96, 0xff, 0x19, 0xe7, 0x18, 0x96, 0x78, 0x84,
  0xf6, 0x08, 0xa6, 0x07, 0xc3, 0x79, 0x8c, 0xe7, 0x78, 0x8d, 0x96, 0x08, 0xf6, 0xd3, 0x79, 0x81,
  0xe7, 0x78, 0x7f, 0x96, 0x19, 0xe7, 0x18, 0x96, 0x40, 0x05, 0x09, 0xe7, 0x08, 0x80, 0x06, 0xc3,
  0x79, 0x7f, 0xe7, 0x78, 0x81, 0x96, 0xff, 0x19, 0xe7, 0x18, 0x96, 0xfe, 0x78, 0x86, 0xa6, 0x06,
  0x08, 0xa6, 0x07, 0x79, 0x8c, 0xe7, 0xd3, 0x78, 0x8b, 0x96, 0x40, 0x05, 0xe7, 0x96, 0xff, 0x80,
  0x08, 0xc3, 0x79, 0x8b, 0xe7, 0x78, 0x8c, 0x96, 0xff, 0x78, 0x8f, 0xa6, 0x07, 0xe5, 0x1f, 0x64,
  0x02, 0x70, 0x69, 0x90, 0x0e, 0x91, 0x93, 0xff, 0x18, 0xe6, 0xc3, 0x9f, 0x50, 0x72, 0x12, 0x0c,
  0x4a, 0x12, 0x0c, 0x2f, 0x90, 0x0e, 0x8e, 0x12, 0x0c, 0x38, 0x78, 0x80, 0x12, 0x0c, 0x6b, 0x7b,
  0x04, 0x12, 0x0c, 0x1d, 0xc3, 0x12, 0x06, 0x45, 0x50, 0x56, 0x90, 0x0e, 0x92, 0xe4, 0x93, 0xff,
  0x78, 0x8f, 0xe6, 0x9f, 0x40, 0x02, 0x80, 0x11, 0x90, 0x0e, 0x90, 0xe4, 0x93, 0xff, 0xd3, 0x78,
  0x89, 0xe6, 0x9f, 0x18, 0xe6, 0x94, 0x00, 0x40, 0x03, 0x75, 0x1f, 0x05, 0x12, 0x0c, 0x4a, 0x12,
  0x0c, 0x2f, 0x90, 0x0e, 0x8f, 0x12, 0x0c, 0x38, 0x78, 0x7e, 0x12, 0x0c, 0x6b, 0x7b, 0x40, 0x12,
  0x0c, 0x1d, 0xd3, 0x12, 0x06, 0x45, 0x40, 0x18, 0x75, 0x1f, 0x05, 0x22, 0xe5, 0x1f, 0xb4, 0x05,
  0x0f, 0xd2, 0x01, 0xc2, 0x02, 0xe4, 0xf5, 0x1f, 0xf5, 0x1e, 0xd2, 0x35, 0xd2, 0x33, 0xd2, 0x36,
  0x22, 0xef, 0x8d, 0xf0, 0xa4, 0xa8, 0xf0, 0xcf, 0x8c, 0xf0, 0xa4, 0x28, 0xce, 0x8d, 0xf0, 0xa4,
  0x2e, 0xfe, 0x22, 0xbc, 0x00, 0x0b, 0xbe, 0x00, 0x29, 0xef, 0x8d, 0xf0, 0x84, 0xff, 0xad, 0xf0,
  0x22, 0xe4, 0xcc, 0xf8, 0x75, 0xf0, 0x08, 0xef, 0x2f, 0xff, 0xee, 0x33, 0xfe, 0xec, 0x33, 0xfc,
  0xee, 0x9d, 0xec, 0x98, 0x40, 0x05, 0xfc, 0xee, 0x9d, 0xfe, 0x0f, 0xd5, 0xf0, 0xe9, 0xe4, 0xce,
  0xfd, 0x22, 0xed, 0xf8, 0xf5, 0xf0, 0xee, 0x84, 0x20, 0xd2, 0x1c, 0xfe, 0xad, 0xf0, 0x75, 0xf0,
  0x08, 0xef, 0x2f, 0xff, 0xed, 0x33, 0xfd, 0x40, 0x07, 0x98, 0x50, 0x06, 0xd5, 0xf0, 0xf2, 0x22,
  0xc3, 0x98, 0xfd, 0x0f, 0xd5, 0xf0, 0xea, 0x22, 0xe8, 0x8f, 0xf0, 0xa4, 0xcc, 0x8b, 0xf0, 0xa4,
  0x2c, 0xfc, 0xe9, 0x8e, 0xf0, 0xa4, 0x2c, 0xfc, 0x8a, 0xf0, 0xed, 0xa4, 0x2c, 0xfc, 0xea, 0x8e,
  0xf0, 0xa4, 0xcd, 0xa8, 0xf0, 0x8b, 0xf0, 0xa4, 0x2d, 0xcc, 0x38, 0x25, 0xf0, 0xfd, 0xe9, 0x8f,
  0xf0, 0xa4, 0x2c, 0xcd, 0x35, 0xf0, 0xfc, 0xeb, 0x8e, 0xf0, 0xa4, 0xfe, 0xa9, 0xf0, 0xeb, 0x8f,
  0xf0, 0xa4, 0xcf, 0xc5, 0xf0, 0x2e, 0xcd, 0x39, 0xfe, 0xe4, 0x3c, 0xfc, 0xea, 0xa4, 0x2d, 0xce,
  0x35, 0xf0, 0xfd, 0xe4, 0x3c, 0xfc, 0x22, 0x75, 0xf0, 0x08, 0x75, 0x82, 0x00, 0xef, 0x2f, 0xff,
  0xee, 0x33, 0xfe, 0xcd, 0x33, 0xcd, 0xcc, 0x33, 0xcc, 0xc5, 0x82, 0x33, 0xc5, 0x82, 0x9b, 0xed,
  0x9a, 0xec, 0x99, 0xe5, 0x82, 0x98, 0x40, 0x0c, 0xf5, 0x82, 0xee, 0x9b, 0xfe, 0xed, 0x9a, 0xfd,
  0xec, 0x99, 0xfc, 0x0f, 0xd5, 0xf0, 0xd6, 0xe4, 0xce, 0xfb, 0xe4, 0xcd, 0xfa, 0xe4, 0xcc, 0xf9,
  0xa8, 0x82, 0x22, 0xb8, 0x00, 0xc1, 0xb9, 0x00, 0x59, 0xba, 0x00, 0x2d, 0xec, 0x8b, 0xf0, 0x84,
  0xcf, 0xce, 0xcd, 0xfc, 0xe5, 0xf0, 0xcb, 0xf9, 0x78, 0x18, 0xef, 0x2f, 0xff, 0xee, 0x33, 0xfe,
  0xed, 0x33, 0xfd, 0xec, 0x33, 0xfc, 0xeb, 0x33, 0xfb, 0x10, 0xd7, 0x03, 0x99, 0x40, 0x04, 0xeb,
  0x99, 0xfb, 0x0f, 0xd8, 0xe5, 0xe4, 0xf9, 0xfa, 0x22, 0x78, 0x18, 0xef, 0x2f, 0xff, 0xee, 0x33,
  0xfe, 0xed, 0x33, 0xfd, 0xec, 0x33, 0xfc, 0xc9, 0x33, 0xc9, 0x10, 0xd7, 0x05, 0x9b, 0xe9, 0x9a,
  0x40, 0x07, 0xec, 0x9b, 0xfc, 0xe9, 0x9a, 0xf9, 0x0f, 0xd8, 0xe0, 0xe4, 0xc9, 0xfa, 0xe4, 0xcc,
  0xfb, 0x22, 0x75, 0xf0, 0x10, 0xef, 0x2f, 0xff, 0xee, 0x33, 0xfe, 0xed, 0x33, 0xfd, 0xcc, 0x33,
  0xcc, 0xc8, 0x33, 0xc8, 0x10, 0xd7, 0x07, 0x9b, 0xec, 0x9a, 0xe8, 0x99, 0x40, 0x0a, 0xed, 0x9b,
  0xfd, 0xec, 0x9a, 0xfc, 0xe8, 0x99, 0xf8, 0x0f, 0xd5, 0xf0, 0xda, 0xe4, 0xcd, 0xfb, 0xe4, 0xcc,
  0xfa, 0xe4, 0xc8, 0xf9, 0x22, 0xeb, 0x9f, 0xf5, 0xf0, 0xea, 0x9e, 0x42, 0xf0, 0xe9, 0x9d, 0x42,
  0xf0, 0xe8, 0x9c, 0x45, 0xf0, 0x22, 0xe8, 0x60, 0x0f, 0xec, 0xc3, 0x13, 0xfc, 0xed, 0x13, 0xfd,
  0xee, 0x13, 0xfe, 0xef, 0x13, 0xff, 0xd8, 0xf1, 0x22, 0xe8, 0x60, 0x0f, 0xef, 0xc3, 0x33, 0xff,
  0xee, 0x33, 0xfe, 0xed, 0x33, 0xfd, 0xec, 0x33, 0xfc, 0xd8, 0xf1, 0x22, 0xe4, 0x93, 0xfc, 0x74,
  0x01, 0x93, 0xfd, 0x74, 0x02, 0x93, 0xfe, 0x74, 0x03, 0x93, 0xff, 0x22, 0xe6, 0xfb, 0x08, 0xe6,
  0xf9, 0x08, 0xe6, 0xfa, 0x08, 0xe6, 0xcb, 0xf8, 0x22, 0xec, 0xf6, 0x08, 0xed, 0xf6, 0x08, 0xee,
  0xf6, 0x08, 0xef, 0xf6, 0x22, 0xa4, 0x25, 0x82, 0xf5, 0x82, 0xe5, 0xf0, 0x35, 0x83, 0xf5, 0x83,
  0x22, 0xd0, 0x83, 0xd0, 0x82, 0xf8, 0xe4, 0x93, 0x70, 0x12, 0x74, 0x01, 0x93, 0x70, 0x0d, 0xa3,
  0xa3, 0x93, 0xf8, 0x74, 0x01, 0x93, 0xf5, 0x82, 0x88, 0x83, 0xe4, 0x73, 0x74, 0x02, 0x93, 0x68,
  0x60, 0xef, 0xa3, 0xa3, 0xa3, 0x80, 0xdf, 0x90, 0x38, 0x04, 0x78, 0x52, 0x12, 0x0b, 0xfd, 0x90,
  0x38, 0x00, 0xe0, 0xfe, 0xa3, 0xe0, 0xfd, 0xed, 0xff, 0xc3, 0x12, 0x0b, 0x9e, 0x90, 0x38, 0x10,
  0x12, 0x0b, 0x92, 0x90, 0x38, 0x06, 0x78, 0x54, 0x12, 0x0b, 0xfd, 0x90, 0x38, 0x02, 0xe0, 0xfe,
  0xa3, 0xe0, 0xfd, 0xed, 0xff, 0xc3, 0x12, 0x0b, 0x9e, 0x90, 0x38, 0x12, 0x12, 0x0b, 0x92, 0xa3,
  0xe0, 0xb4, 0x31, 0x07, 0x78, 0x52, 0x79, 0x52, 0x12, 0x0c, 0x13, 0x90, 0x38, 0x14, 0xe0, 0xb4,
  0x71, 0x15, 0x78, 0x52, 0xe6, 0xfe, 0x08, 0xe6, 0x78, 0x02, 0xce, 0xc3, 0x13, 0xce, 0x13, 0xd8,
  0xf9, 0x79, 0x53, 0xf7, 0xee, 0x19, 0xf7, 0x90, 0x38, 0x15, 0xe0, 0xb4, 0x31, 0x07, 0x78, 0x54,
  0x79, 0x54, 0x12, 0x0c, 0x13, 0x90, 0x38, 0x15, 0xe0, 0xb4, 0x71, 0x15, 0x78, 0x54, 0xe6, 0xfe,
  0x08, 0xe6, 0x78, 0x02, 0xce, 0xc3, 0x13, 0xce, 0x13, 0xd8, 0xf9, 0x79, 0x55, 0xf7, 0xee, 0x19,
  0xf7, 0x79, 0x52, 0x12, 0x0b, 0xd9, 0x09, 0x12, 0x0b, 0xd9, 0xaf, 0x47, 0x12, 0x0b, 0xb2, 0xe5,
  0x44, 0xfb, 0x7a, 0x00, 0xfd, 0x7c, 0x00, 0x12, 0x04, 0xd3, 0x78, 0x5a, 0xa6, 0x06, 0x08, 0xa6,
  0x07, 0xaf, 0x45, 0x12, 0x0b, 0xb2, 0xad, 0x03, 0x7c, 0x00, 0x12, 0x04, 0xd3, 0x78, 0x56, 0xa6,
  0x06, 0x08, 0xa6, 0x07, 0xaf, 0x48, 0x78, 0x54, 0x12, 0x0b, 0xb4, 0xe5, 0x43, 0xfb, 0xfd, 0x7c,
  0x00, 0x12, 0x04, 0xd3, 0x78, 0x5c, 0xa6, 0x06, 0x08, 0xa6, 0x07, 0xaf, 0x46, 0x7e, 0x00, 0x78,
  0x54, 0x12, 0x0b, 0xb6, 0xad, 0x03, 0x7c, 0x00, 0x12, 0x04, 0xd3, 0x78, 0x58, 0xa6, 0x06, 0x08,
  0xa6, 0x07, 0xc3, 0x78, 0x5b, 0xe6, 0x94, 0x08, 0x18, 0xe6, 0x94, 0x00, 0x50, 0x05, 0x76, 0x00,
  0x08, 0x76, 0x08, 0xc3, 0x78, 0x5d, 0xe6, 0x94, 0x08, 0x18, 0xe6, 0x94, 0x00, 0x50, 0x05, 0x76,
  0x00, 0x08, 0x76, 0x08, 0x78, 0x5a, 0x12, 0x0b, 0xc6, 0xff, 0xd3, 0x78, 0x57, 0xe6, 0x9f, 0x18,
  0xe6, 0x9e, 0x40, 0x0e, 0x78, 0x5a, 0xe6, 0x13, 0xfe, 0x08, 0xe6, 0x78, 0x57, 0x12, 0x0c, 0x08,
  0x80, 0x04, 0x7e, 0x00, 0x7f, 0x00, 0x78, 0x5e, 0x12, 0x0b, 0xbe, 0xff, 0xd3, 0x78, 0x59, 0xe6,
  0x9f, 0x18, 0xe6, 0x9e, 0x40, 0x0e, 0x78, 0x5c, 0xe6, 0x13, 0xfe, 0x08, 0xe6, 0x78, 0x59, 0x12,
  0x0c, 0x08, 0x80, 0x04, 0x7e, 0x00, 0x7f, 0x00, 0xe4, 0xfc, 0xfd, 0x78, 0x62, 0x12, 0x06, 0x99,
  0x78, 0x5a, 0x12, 0x0b, 0xc6, 0x78, 0x57, 0x26, 0xff, 0xee, 0x18, 0x36, 0xfe, 0x78, 0x66, 0x12,
  0x0b, 0xbe, 0x78, 0x59, 0x26, 0xff, 0xee, 0x18, 0x36, 0xfe, 0xe4, 0xfc, 0xfd, 0x78, 0x6a, 0x12,
  0x06, 0x99, 0x12, 0x0b, 0xce, 0x78, 0x66, 0x12, 0x06, 0x8c, 0xd3, 0x12, 0x06, 0x45, 0x40, 0x08,
  0x12, 0x0b, 0xce, 0x78, 0x66, 0x12, 0x06, 0x99, 0x78, 0x54, 0x12, 0x0b, 0xd0, 0x78, 0x6a, 0x12,
  0x06, 0x8c, 0xd3, 0x12, 0x06, 0x45, 0x40, 0x0a, 0x78, 0x54, 0x12, 0x0b, 0xd0, 0x78, 0x6a, 0x12,
  0x06, 0x99, 0x78, 0x61, 0xe6, 0x90, 0x60, 0x01, 0xf0, 0x78, 0x65, 0xe6, 0xa3, 0xf0, 0x78, 0x69,
  0xe6, 0xa3, 0xf0, 0x78, 0x55, 0xe6, 0xa3, 0xf0, 0x7d, 0x01, 0x78, 0x61, 0x12, 0x0b, 0xe9, 0x24,
  0x01, 0x12, 0x0b, 0xa6, 0x78, 0x65, 0x12, 0x0b, 0xe9, 0x24, 0x02, 0x12, 0x0b, 0xa6, 0x78, 0x69,
  0x12, 0x0b, 0xe9, 0x24, 0x03, 0x12, 0x0b, 0xa6, 0x78, 0x6d, 0x12, 0x0b, 0xe9, 0x24, 0x04, 0x12,
  0x0b, 0xa6, 0x0d, 0xbd, 0x05, 0xd4, 0xc2, 0x0e, 0xc2, 0x06, 0x22, 0x85, 0x08, 0x41, 0x90, 0x30,
  0x24, 0xe0, 0xf5, 0x3d, 0xa3, 0xe0, 0xf5, 0x3e, 0xa3, 0xe0, 0xf5, 0x3f, 0xa3, 0xe0, 0xf5, 0x40,
  0xa3, 0xe0, 0xf5, 0x3c, 0xd2, 0x34, 0xe5, 0x41, 0x12, 0x06, 0xb1, 0x09, 0x31, 0x03, 0x09, 0x35,
  0x04, 0x09, 0x3b, 0x05, 0x09, 0x3e, 0x06, 0x09, 0x41, 0x07, 0x09, 0x4a, 0x08, 0x09, 0x5b, 0x12,
  0x09, 0x73, 0x18, 0x09, 0x89, 0x19, 0x09, 0x5e, 0x1a, 0x09, 0x6a, 0x1b, 0x09, 0xad, 0x80, 0x09,
  0xb2, 0x81, 0x0a, 0x1d, 0x8f, 0x0a, 0x09, 0x90, 0x0a, 0x1d, 0x91, 0x0a, 0x1d, 0x92, 0x0a, 0x1d,
  0x93, 0x0a, 0x1d, 0x94, 0x0a, 0x1d, 0x98, 0x0a, 0x17, 0x9f, 0x0a, 0x1a, 0xec, 0x00, 0x00, 0x0a,
  0x38, 0x12, 0x0f, 0x74, 0x22, 0x12, 0x0f, 0x74, 0xd2, 0x03, 0x22, 0xd2, 0x03, 0x22, 0xc2, 0x03,
  0x22, 0xa2, 0x37, 0xe4, 0x33, 0xf5, 0x3c, 0x02, 0x0a, 0x1d, 0xc2, 0x01, 0xc2, 0x02, 0xc2, 0x03,
  0x12, 0x0d, 0x0d, 0x75, 0x1e, 0x70, 0xd2, 0x35, 0x02, 0x0a, 0x1d, 0x02, 0x0a, 0x04, 0x85, 0x40,
  0x4a, 0x85, 0x3c, 0x4b, 0x12, 0x0a, 0xff, 0x02, 0x0a, 0x1d, 0x85, 0x4a, 0x40, 0x85, 0x4b, 0x3c,
  0x02, 0x0a, 0x1d, 0xe4, 0xf5, 0x22, 0xf5, 0x23, 0x85, 0x40, 0x31, 0x85, 0x3f, 0x30, 0x85, 0x3e,
  0x2f, 0x85, 0x3d, 0x2e, 0x12, 0x0f, 0x46, 0x80, 0x1f, 0x75, 0x22, 0x00, 0x75, 0x23, 0x01, 0x74,
  0xff, 0xf5, 0x2d, 0xf5, 0x2c, 0xf5, 0x2b, 0xf5, 0x2a, 0x12, 0x0f, 0x46, 0x85, 0x2d, 0x40, 0x85,
  0x2c, 0x3f, 0x85, 0x2b, 0x3e, 0x85, 0x2a, 0x3d, 0xe4, 0xf5, 0x3c, 0x80, 0x70, 0x12, 0x0f, 0x16,
  0x80, 0x6b, 0x85, 0x3d, 0x45, 0x85, 0x3e, 0x46, 0xe5, 0x47, 0xc3, 0x13, 0xff, 0xe5, 0x45, 0xc3,
  0x9f, 0x50, 0x02, 0x8f, 0x45, 0xe5, 0x48, 0xc3, 0x13, 0xff, 0xe5, 0x46, 0xc3, 0x9f, 0x50, 0x02,
  0x8f, 0x46, 0xe5, 0x47, 0xc3, 0x13, 0xff, 0xfd, 0xe5, 0x45, 0x2d, 0xfd, 0xe4, 0x33, 0xfc, 0xe5,
  0x44, 0x12, 0x0f, 0x90, 0x40, 0x05, 0xe5, 0x44, 0x9f, 0xf5, 0x45, 0xe5, 0x48, 0xc3, 0x13, 0xff,
  0xfd, 0xe5, 0x46, 0x2d, 0xfd, 0xe4, 0x33, 0xfc, 0xe5, 0x43, 0x12, 0x0f, 0x90, 0x40, 0x05, 0xe5,
  0x43, 0x9f, 0xf5, 0x46, 0x12, 0x06, 0xd7, 0x80, 0x14, 0x85, 0x40, 0x48, 0x85, 0x3f, 0x47, 0x85,
  0x3e, 0x46, 0x85, 0x3d, 0x45, 0x80, 0x06, 0x02, 0x06, 0xd7, 0x12, 0x0d, 0x7e, 0x90, 0x30, 0x24,
  0xe5, 0x3d, 0xf0, 0xa3, 0xe5, 0x3e, 0xf0, 0xa3, 0xe5, 0x3f, 0xf0, 0xa3, 0xe5, 0x40, 0xf0, 0xa3,
  0xe5, 0x3c, 0xf0, 0x90, 0x30, 0x23, 0xe4, 0xf0, 0x22, 0xc0, 0xe0, 0xc0, 0x83, 0xc0, 0x82, 0xc0,
  0xd0, 0x90, 0x3f, 0x0c, 0xe0, 0xf5, 0x32, 0xe5, 0x32, 0x30, 0xe3, 0x74, 0x30, 0x36, 0x66, 0x90,
  0x60, 0x19, 0xe0, 0xf5, 0x0a, 0xa3, 0xe0, 0xf5, 0x0b, 0x90, 0x60, 0x1d, 0xe0, 0xf5, 0x14, 0xa3,
  0xe0, 0xf5, 0x15, 0x90, 0x60, 0x21, 0xe0, 0xf5, 0x0c, 0xa3, 0xe0, 0xf5, 0x0d, 0x90, 0x60, 0x29,
  0xe0, 0xf5, 0x0e, 0xa3, 0xe0, 0xf5, 0x0f, 0x90, 0x60, 0x31, 0xe0, 0xf5, 0x10, 0xa3, 0xe0, 0xf5,
  0x11, 0x90, 0x60, 0x39, 0xe0, 0xf5, 0x12, 0xa3, 0xe0, 0xf5, 0x13, 0x30, 0x01, 0x06, 0x30, 0x33,
  0x03, 0xd3, 0x80, 0x01, 0xc3, 0x92, 0x09, 0x30, 0x02, 0x06, 0x30, 0x33, 0x03, 0xd3, 0x80, 0x01,
  0xc3, 0x92, 0x0a, 0x30, 0x33, 0x0c, 0x30, 0x03, 0x09, 0x20, 0x02, 0x06, 0x20, 0x01, 0x03, 0xd3,
  0x80, 0x01, 0xc3, 0x92, 0x0b, 0x90, 0x30, 0x01, 0xe0, 0x44, 0x40, 0xf0, 0xe0, 0x54, 0xbf, 0xf0,
  0xe5, 0x32, 0x30, 0xe1, 0x14, 0x30, 0x34, 0x11, 0x90, 0x30, 0x22, 0xe0, 0xf5, 0x08, 0xe4, 0xf0,
  0x30, 0x00, 0x03, 0xd3, 0x80, 0x01, 0xc3, 0x92, 0x08, 0xe5, 0x32, 0x30, 0xe5, 0x12, 0x90, 0x56,
  0xa1, 0xe0, 0xf5, 0x09, 0x30, 0x31, 0x09, 0x30, 0x05, 0x03, 0xd3, 0x80, 0x01, 0xc3, 0x92, 0x0d,
  0x90, 0x3f, 0x0c, 0xe5, 0x32, 0xf0, 0xd0, 0xd0, 0xd0, 0x82, 0xd0, 0x83, 0xd0, 0xe0, 0x32, 0x90,
  0x0e, 0x7e, 0xe4, 0x93, 0xfe, 0x74, 0x01, 0x93, 0xff, 0xc3, 0x90, 0x0e, 0x7c, 0x74, 0x01, 0x93,
  0x9f, 0xff, 0xe4, 0x93, 0x9e, 0xfe, 0xe4, 0x8f, 0x3b, 0x8e, 0x3a, 0xf5, 0x39, 0xf5, 0x38, 0xab,
  0x3b, 0xaa, 0x3a, 0xa9, 0x39, 0xa8, 0x38, 0xaf, 0x4b, 0xfc, 0xfd, 0xfe, 0x12, 0x05, 0x28, 0x12,
  0x0d, 0xe1, 0xe4, 0x7b, 0xff, 0xfa, 0xf9, 0xf8, 0x12, 0x05, 0xb3, 0x12, 0x0d, 0xe1, 0x90, 0x0e,
  0x69, 0xe4, 0x12, 0x0d, 0xf6, 0x12, 0x0d, 0xe1, 0xe4, 0x85, 0x4a, 0x37, 0xf5, 0x36, 0xf5, 0x35,
  0xf5, 0x34, 0xaf, 0x37, 0xae, 0x36, 0xad, 0x35, 0xac, 0x34, 0xa3, 0x12, 0x0d, 0xf6, 0x8f, 0x37,
  0x8e, 0x36, 0x8d, 0x35, 0x8c, 0x34, 0xe5, 0x3b, 0x45, 0x37, 0xf5, 0x3b, 0xe5, 0x3a, 0x45, 0x36,
  0xf5, 0x3a, 0xe5, 0x39, 0x45, 0x35, 0xf5, 0x39, 0xe5, 0x38, 0x45, 0x34, 0xf5, 0x38, 0xe4, 0xf5,
  0x22, 0xf5, 0x23, 0x85, 0x3b, 0x31, 0x85, 0x3a, 0x30, 0x85, 0x39, 0x2f, 0x85, 0x38, 0x2e, 0x02,
  0x0f, 0x46, 0xe0, 0xa3, 0xe0, 0x75, 0xf0, 0x02, 0xa4, 0xff, 0xae, 0xf0, 0xc3, 0x08, 0xe6, 0x9f,
  0xf6, 0x18, 0xe6, 0x9e, 0xf6, 0x22, 0xff, 0xe5, 0xf0, 0x34, 0x60, 0x8f, 0x82, 0xf5, 0x83, 0xec,
  0xf0, 0x22, 0x78, 0x52, 0x7e, 0x00, 0xe6, 0xfc, 0x08, 0xe6, 0xfd, 0x02, 0x04, 0xc1, 0xe4, 0xfc,
  0xfd, 0x12, 0x06, 0x99, 0x78, 0x5c, 0xe6, 0xc3, 0x13, 0xfe, 0x08, 0xe6, 0x13, 0x22, 0x78, 0x52,
  0xe6, 0xfe, 0x08, 0xe6, 0xff, 0xe4, 0xfc, 0xfd, 0x22, 0xe7, 0xc4, 0xf8, 0x54, 0xf0, 0xc8, 0x68,
  0xf7, 0x09, 0xe7, 0xc4, 0x54, 0x0f, 0x48, 0xf7, 0x22, 0xe6, 0xfc, 0xed, 0x75, 0xf0, 0x04, 0xa4,
  0x22, 0x12, 0x06, 0x7c, 0x8f, 0x48, 0x8e, 0x47, 0x8d, 0x46, 0x8c, 0x45, 0x22, 0xe0, 0xfe, 0xa3,
  0xe0, 0xfd, 0xee, 0xf6, 0xed, 0x08, 0xf6, 0x22, 0x13, 0xff, 0xc3, 0xe6, 0x9f, 0xff, 0x18, 0xe6,
  0x9e, 0xfe, 0x22, 0xe6, 0xc3, 0x13, 0xf7, 0x08, 0xe6, 0x13, 0x09, 0xf7, 0x22, 0xad, 0x39, 0xac,
  0x38, 0xfa, 0xf9, 0xf8, 0x12, 0x05, 0x28, 0x8f, 0x3b, 0x8e, 0x3a, 0x8d, 0x39, 0x8c, 0x38, 0xab,
  0x37, 0xaa, 0x36, 0xa9, 0x35, 0xa8, 0x34, 0x22, 0x93, 0xff, 0xe4, 0xfc, 0xfd, 0xfe, 0x12, 0x05,
  0x28, 0x8f, 0x37, 0x8e, 0x36, 0x8d, 0x35, 0x8c, 0x34, 0x22, 0x78, 0x84, 0xe6, 0xfe, 0x08, 0xe6,
  0xff, 0xe4, 0x8f, 0x37, 0x8e, 0x36, 0xf5, 0x35, 0xf5, 0x34, 0x22, 0x90, 0x0e, 0x8c, 0xe4, 0x93,
  0x25, 0xe0, 0x24, 0x0a, 0xf8, 0xe6, 0xfe, 0x08, 0xe6, 0xff, 0x22, 0xe6, 0xfe, 0x08, 0xe6, 0xff,
  0xe4, 0x8f, 0x3b, 0x8e, 0x3a, 0xf5, 0x39, 0xf5, 0x38, 0x22, 0x78, 0x4e, 0xe6, 0xfe, 0x08, 0xe6,
  0xff, 0x22, 0xef, 0x25, 0xe0, 0x24, 0x4e, 0xf8, 0xe6, 0xfc, 0x08, 0xe6, 0xfd, 0x22, 0x78, 0x89,
  0xef, 0x26, 0xf6, 0x18, 0xe4, 0x36, 0xf6, 0x22, 0x75, 0x89, 0x03, 0x75, 0xa8, 0x01, 0x75, 0xb8,
  0x04, 0x75, 0x34, 0xff, 0x75, 0x35, 0x0e, 0x75, 0x36, 0x15, 0x75, 0x37, 0x0d, 0x12, 0x0e, 0x9a,
  0x12, 0x00, 0x09, 0x12, 0x0f, 0x16, 0x12, 0x00, 0x06, 0xd2, 0x00, 0xd2, 0x34, 0xd2, 0xaf, 0x75,
  0x34, 0xff, 0x75, 0x35, 0x0e, 0x75, 0x36, 0x49, 0x75, 0x37, 0x03, 0x12, 0x0e, 0x9a, 0x30, 0x08,
  0x09, 0xc2, 0x34, 0x12, 0x08, 0xcb, 0xc2, 0x08, 0xd2, 0x34, 0x30, 0x0b, 0x09, 0xc2, 0x36, 0x12,
  0x02, 0x6c, 0xc2, 0x0b, 0xd2, 0x36, 0x30, 0x09, 0x09, 0xc2, 0x36, 0x12, 0x00, 0x0e, 0xc2, 0x09,
  0xd2, 0x36, 0x30, 0x0e, 0x03, 0x12, 0x06, 0xd7, 0x30, 0x35, 0xd3, 0x90, 0x30, 0x29, 0xe5, 0x1e,
  0xf0, 0xb4, 0x10, 0x05, 0x90, 0x30, 0x23, 0xe4, 0xf0, 0xc2, 0x35, 0x80, 0xc1, 0xe4, 0xf5, 0x4b,
  0x90, 0x0e, 0x7a, 0x93, 0xff, 0xe4, 0x8f, 0x37, 0xf5, 0x36, 0xf5, 0x35, 0xf5, 0x34, 0xaf, 0x37,
  0xae, 0x36, 0xad, 0x35, 0xac, 0x34, 0x90, 0x0e, 0x6a, 0x12, 0x0d, 0xf6, 0x8f, 0x37, 0x8e, 0x36,
  0x8d, 0x35, 0x8c, 0x34, 0x90, 0x0e, 0x72, 0x12, 0x06, 0x7c, 0xef, 0x45, 0x37, 0xf5, 0x37, 0xee,
  0x45, 0x36, 0xf5, 0x36, 0xed, 0x45, 0x35, 0xf5, 0x35, 0xec, 0x45, 0x34, 0xf5, 0x34, 0xe4, 0xf5,
  0x22, 0xf5, 0x23, 0x85, 0x37, 0x31, 0x85, 0x36, 0x30, 0x85, 0x35, 0x2f, 0x85, 0x34, 0x2e, 0x12,
  0x0f, 0x46, 0xe4, 0xf5, 0x22, 0xf5, 0x23, 0x90, 0x0e, 0x72, 0x12, 0x0d, 0xea, 0x12, 0x0f, 0x46,
  0xe4, 0xf5, 0x22, 0xf5, 0x23, 0x90, 0x0e, 0x6e, 0x12, 0x0d, 0xea, 0x02, 0x0f, 0x46, 0xe5, 0x40,
  0x24, 0xf2, 0xf5, 0x37, 0xe5, 0x3f, 0x34, 0x43, 0xf5, 0x36, 0xe5, 0x3e, 0x34, 0xa2, 0xf5, 0x35,
  0xe5, 0x3d, 0x34, 0x28, 0xf5, 0x34, 0xe5, 0x37, 0xff, 0xe4, 0xfe, 0xfd, 0xfc, 0x78, 0x18, 0x12,
  0x06, 0x69, 0x8f, 0x40, 0x8e, 0x3f, 0x8d, 0x3e, 0x8c, 0x3d, 0xe5, 0x37, 0x54, 0xa0, 0xff, 0xe5,
  0x36, 0xfe, 0xe4, 0xfd, 0xfc, 0x78, 0x07, 0x12, 0x06, 0x56, 0x78, 0x10, 0x12, 0x0f, 0x9a, 0xe4,
  0xff, 0xfe, 0xe5, 0x35, 0xfd, 0xe4, 0xfc, 0x78, 0x0e, 0x12, 0x06, 0x56, 0x12, 0x0f, 0x9d, 0xe4,
  0xff, 0xfe, 0xfd, 0xe5, 0x34, 0xfc, 0x78, 0x18, 0x12, 0x06, 0x56, 0x78, 0x08, 0x12, 0x0f, 0x9a,
  0x22, 0x8f, 0x3b, 0x8e, 0x3a, 0x8d, 0x39, 0x8c, 0x38, 0x22, 0x12, 0x06, 0x7c, 0x8f, 0x31, 0x8e,
  0x30, 0x8d, 0x2f, 0x8c, 0x2e, 0x22, 0x93, 0xf9, 0xf8, 0x02, 0x06, 0x69, 0x00, 0x00, 0x00, 0x00,
  0x12, 0x01, 0x17, 0x08, 0x31, 0x15, 0x53, 0x54, 0x44, 0x20, 0x20, 0x20, 0x20, 0x20, 0x13, 0x01,
  0x10, 0x01, 0x56, 0x40, 0x1a, 0x30, 0x29, 0x7e, 0x00, 0x30, 0x04, 0x20, 0xdf, 0x30, 0x05, 0x40,
  0xbf, 0x50, 0x03, 0x00, 0xfd, 0x50, 0x27, 0x01, 0xfe, 0x60, 0x00, 0x11, 0x00, 0x3f, 0x05, 0x30,
  0x00, 0x3f, 0x06, 0x22, 0x00, 0x3f, 0x01, 0x2a, 0x00, 0x3f, 0x02, 0x00, 0x00, 0x36, 0x06, 0x07,
  0x00, 0x3f, 0x0b, 0x0f, 0xf0, 0x00, 0x00, 0x00, 0x00, 0x30, 0x01, 0x40, 0xbf, 0x30, 0x01, 0x00,
  0xbf, 0x30, 0x29, 0x70, 0x00, 0x3a, 0x00, 0x00, 0xff, 0x3a, 0x00, 0x00, 0xff, 0x36, 0x03, 0x36,
  0x02, 0x41, 0x44, 0x58, 0x20, 0x18, 0x10, 0x0a, 0x04, 0x04, 0x00, 0x03, 0xff, 0x64, 0x00, 0x00,
  0x80, 0x00, 0x00, 0x00, 0x00, 0x00, 0x00, 0x02, 0x04, 0x06, 0x06, 0x00, 0x03, 0x51, 0x00, 0x7a,
  0x50, 0x3c, 0x28, 0x1e, 0x10, 0x10, 0x50, 0x2d, 0x28, 0x16, 0x10, 0x10, 0x02, 0x00, 0x10, 0x0c,
  0x10, 0x04, 0x0c, 0x6e, 0x06, 0x05, 0x00, 0xa5, 0x5a, 0x00, 0xae, 0x35, 0xaf, 0x36, 0xe4, 0xfd,
  0xed, 0xc3, 0x95, 0x37, 0x50, 0x33, 0x12, 0x0f, 0xe2, 0xe4, 0x93, 0xf5, 0x38, 0x74, 0x01, 0x93,
  0xf5, 0x39, 0x45, 0x38, 0x60, 0x23, 0x85, 0x39, 0x82, 0x85, 0x38, 0x83, 0xe0, 0xfc, 0x12, 0x0f,
  0xe2, 0x74, 0x03, 0x93, 0x52, 0x04, 0x12, 0x0f, 0xe2, 0x74, 0x02, 0x93, 0x42, 0x04, 0x85, 0x39,
  0x82, 0x85, 0x38, 0x83, 0xec, 0xf0, 0x0d, 0x80, 0xc7, 0x22, 0x78, 0xbe, 0xe6, 0xd3, 0x08, 0xff,
  0xe6, 0x64, 0x80, 0xf8, 0xef, 0x64, 0x80, 0x98, 0x22, 0x93, 0xff, 0x7e, 0x00, 0xe6, 0xfc, 0x08,
  0xe6, 0xfd, 0x12, 0x04, 0xc1, 0x78, 0xc1, 0xe6, 0xfc, 0x08, 0xe6, 0xfd, 0xd3, 0xef, 0x9d, 0xee,
  0x9c, 0x22, 0x78, 0xbd, 0xd3, 0xe6, 0x64, 0x80, 0x94, 0x80, 0x22, 0x25, 0xe0, 0x24, 0x0a, 0xf8,
  0xe6, 0xfe, 0x08, 0xe6, 0xff, 0x22, 0xe5, 0x3c, 0xd3, 0x94, 0x00, 0x40, 0x0b, 0x90, 0x0e, 0x88,
  0x12, 0x0b, 0xf1, 0x90, 0x0e, 0x86, 0x80, 0x09, 0x90, 0x0e, 0x82, 0x12, 0x0b, 0xf1, 0x90, 0x0e,
  0x80, 0xe4, 0x93, 0xf5, 0x44, 0xa3, 0xe4, 0x93, 0xf5, 0x43, 0xd2, 0x06, 0x30, 0x06, 0x03, 0xd3,
  0x80, 0x01, 0xc3, 0x92, 0x0e, 0x22, 0xa2, 0xaf, 0x92, 0x32, 0xc2, 0xaf, 0xe5, 0x23, 0x45, 0x22,
  0x90, 0x0e, 0x5d, 0x60, 0x0e, 0x12, 0x0f, 0xcb, 0xe0, 0xf5, 0x2c, 0x12, 0x0f, 0xc8, 0xe0, 0xf5,
  0x2d, 0x80, 0x0c, 0x12, 0x0f, 0xcb, 0xe5, 0x30, 0xf0, 0x12, 0x0f, 0xc8, 0xe5, 0x31, 0xf0, 0xa2,
  0x32, 0x92, 0xaf, 0x22, 0xd2, 0x01, 0xc2, 0x02, 0xe4, 0xf5, 0x1f, 0xf5, 0x1e, 0xd2, 0x35, 0xd2,
  0x33, 0xd2, 0x36, 0xd2, 0x01, 0xc2, 0x02, 0xf5, 0x1f, 0xf5, 0x1e, 0xd2, 0x35, 0xd2, 0x33, 0x22,
  0xfb, 0xd3, 0xed, 0x9b, 0x74, 0x80, 0xf8, 0x6c, 0x98, 0x22, 0x12, 0x06, 0x69, 0xe5, 0x40, 0x2f,
  0xf5, 0x40, 0xe5, 0x3f, 0x3e, 0xf5, 0x3f, 0xe5, 0x3e, 0x3d, 0xf5, 0x3e, 0xe5, 0x3d, 0x3c, 0xf5,
  0x3d, 0x22, 0xc0, 0xe0, 0xc0, 0x83, 0xc0, 0x82, 0x90, 0x3f, 0x0d, 0xe0, 0xf5, 0x33, 0xe5, 0x33,
  0xf0, 0xd0, 0x82, 0xd0, 0x83, 0xd0, 0xe0, 0x32, 0x90, 0x0e, 0x5f, 0xe4, 0x93, 0xfe, 0x74, 0x01,
  0x93, 0xf5, 0x82, 0x8e, 0x83, 0x22, 0x78, 0x7f, 0xe4, 0xf6, 0xd8, 0xfd, 0x75, 0x81, 0xcd, 0x02,
  0x0c, 0x98, 0x8f, 0x82, 0x8e, 0x83, 0x75, 0xf0, 0x04, 0xed, 0x02, 0x06, 0xa5
]

/-- Embedding of OV5640_SetPolarities (src/ov5640.c lines 847-866): a null
handle or any polarity argument outside its two accepted sentinels fails
without touching the bus; otherwise the packed polarity byte
(Pclk shifted 5, Href shifted 1, Vsync) is written to the polarity
control register (the uint8_t cast in the source applies to the Pclk
shift, and the final assignment truncates to a byte). -/
def OV5640_SetPolarities {σ : Type} (B : Bus σ) (s : σ) (pObj : Option OV5640_Object)
    (PclkPolarity HrefPolarity VsyncPolarity : Nat) : WOut σ :=
  if pObj = none ∨
      (PclkPolarity ≠ OV5640_POLARITY_PCLK_LOW ∧ PclkPolarity ≠ OV5640_POLARITY_PCLK_HIGH) ∨
      (HrefPolarity ≠ OV5640_POLARITY_HREF_LOW ∧ HrefPolarity ≠ OV5640_POLARITY_HREF_HIGH) ∨
      (VsyncPolarity ≠ OV5640_POLARITY_VSYNC_LOW ∧ VsyncPolarity ≠ OV5640_POLARITY_VSYNC_HIGH) then
    ⟨s, OV5640_ERROR, []⟩
  else
    let tmp := (((PclkPolarity <<< 5) &&& 0xFF) ||| (HrefPolarity <<< 1) ||| VsyncPolarity) &&& 0xFF
    let w := ov5640_write_reg B s OV5640_POLARITY_CTRL tmp
    if w.ret ≠ OV5640_OK then ⟨w.bus, OV5640_ERROR, w.trace⟩
    else ⟨w.bus, OV5640_OK, w.trace⟩

/-- Embedding of OV5640_EnableDVPMode (src/ov5640.c lines 1792-1823): the
DVP register list applied with break-on-first-failure. -/
def OV5640_EnableDVPMode {σ : Type} (B : Bus σ) (s : σ) (pObj : OV5640_Object) : WOut σ :=
  applyTableBreak B s OV5640_OK OV5640_DVP_regs

/-- Embedding of OV5640_EnableMIPIMode (src/ov5640.c lines 1856-1891): the
MIPI register list applied with break-on-first-failure. -/
def OV5640_EnableMIPIMode {σ : Type} (B : Bus σ) (s : σ) (pObj : OV5640_Object) : WOut σ :=
  applyTableBreak B s OV5640_OK OV5640_MIPI_regs

/-- Embedding of OV5640_SetMIPIVirtualChannel (src/ov5640.c lines
1899-1915): read-modify-write of register 0x4814, clearing the top two
bits and OR-ing in the channel shifted by 6 (truncated to a byte by the
uint8_t assignment). -/
def OV5640_SetMIPIVirtualChannel {σ : Type} (B : Bus σ) (s : σ) (pObj : OV5640_Object)
    (vchannel : Nat) : WOut σ :=
  let r := ov5640_read_reg B s 0x4814
  if r.ret ≠ OV5640_OK then ⟨r.bus, OV5640_ERROR, r.trace⟩
  else
    let tmp := ((r.val &&& 0x3F) ||| (vchannel <<< 6)) &&& 0xFF
    let w := ov5640_write_reg B r.bus 0x4814 tmp
    if w.ret ≠ OV5640_OK then ⟨w.bus, OV5640_ERROR, r.trace ++ w.trace⟩
    else ⟨w.bus, OV5640_OK, r.trace ++ w.trace⟩

/-- Embedding of OV5640_SetResolution (src/ov5640.c lines 657-771): after
the range check, the resolution-specific 4-entry table is applied with
the guarded loop. -/
def OV5640_SetResolution {σ : Type} (B : Bus σ) (s : σ) (pObj : OV5640_Object)
    (Resolution : Nat) : WOut σ :=
  if Resolution > OV5640_R800x480 then ⟨s, OV5640_ERROR, []⟩
  else if Resolution = OV5640_R160x120 then applyTableGuarded B s OV5640_OK OV5640_QQVGA
  else if Resolution = OV5640_R320x240 then applyTableGuarded B s OV5640_OK OV5640_QVGA
  else if Resolution = OV5640_R480x272 then applyTableGuarded B s OV5640_OK OV5640_480x272
  else if Resolution = OV5640_R640x480 then applyTableGuarded B s OV5640_OK OV5640_VGA
  else if Resolution = OV5640_R800x480 then applyTableGuarded B s OV5640_OK OV5640_WVGA
  else ⟨s, OV5640_ERROR, []⟩

/-- Embedding of OV5640_SetPixelFormat (src/ov5640.c lines 474-636): after
the format check, the format-specific table is applied with the guarded
loop (the per-entry 1 ms delay issues no bus operation); for JPEG three
additional read-modify-write patches follow unconditionally, enabling the
JPEG clock bits. -/
def OV5640_SetPixelFormat {σ : Type} (B : Bus σ) (s : σ) (pObj : OV5640_Object)
    (PixelFormat : Nat) : WOut σ :=
  if PixelFormat ≠ OV5640_RGB565 ∧ PixelFormat ≠ OV5640_YUV422 ∧ PixelFormat ≠ OV5640_RGB888 ∧
      PixelFormat ≠ OV5640_Y8 ∧ PixelFormat ≠ OV5640_JPEG then
    ⟨s, OV5640_ERROR, []⟩
  else
    let tbl :=
      if PixelFormat = OV5640_YUV422 then OV5640_PF_YUV422
      else if PixelFormat = OV5640_RGB888 then OV5640_PF_RGB888
      else if PixelFormat = OV5640_Y8 then OV5640_PF_Y8
      else if PixelFormat = OV5640_JPEG then OV5640_PF_JPEG
      else OV5640_PF_RGB565
    let l := applyTableGuarded B s OV5640_OK tbl
    if PixelFormat = OV5640_JPEG then
      let r1 := ov5640_read_reg B l.bus OV5640_TIMING_TC_REG21
      if r1.ret ≠ OV5640_OK then ⟨r1.bus, OV5640_ERROR, l.trace ++ r1.trace⟩
      else
        let w1 := ov5640_write_reg B r1.bus OV5640_TIMING_TC_REG21 ((r1.val ||| (1 <<< 5)) &&& 0xFF)
        if w1.ret ≠ OV5640_OK then ⟨w1.bus, OV5640_ERROR, l.trace ++ r1.trace ++ w1.trace⟩
        else
          let r2 := ov5640_read_reg B w1.bus OV5640_SYSREM_RESET02
          if r2.ret ≠ OV5640_OK then
            ⟨r2.bus, OV5640_ERROR, l.trace ++ r1.trace ++ w1.trace ++ r2.trace⟩
          else
            let w2 := ov5640_write_reg B r2.bus OV5640_SYSREM_RESET02 (r2.val &&& 0xE3)
            if w2.ret ≠ OV5640_OK then
              ⟨w2.bus, OV5640_ERROR, l.trace ++ r1.trace ++ w1.trace ++ r2.trace ++ w2.trace⟩
            else
              let r3 := ov5640_read_reg B w2.bus OV5640_CLOCK_ENABLE02
              if r3.ret ≠ OV5640_OK then
                ⟨r3.bus, OV5640_ERROR,
                  l.trace ++ r1.trace ++ w1.trace ++ r2.trace ++ w2.trace ++ r3.trace⟩
              else
                let w3 := ov5640_write_reg B r3.bus OV5640_CLOCK_ENABLE02 ((r3.val ||| 0x28) &&& 0xFF)
                if w3.ret ≠ OV5640_OK then
                  ⟨w3.bus, OV5640_ERROR,
                    l.trace ++ r1.trace ++ w1.trace ++ r2.trace ++ w2.trace ++ r3.trace ++ w3.trace⟩
                else
                  ⟨w3.bus, l.ret,
                    l.trace ++ r1.trace ++ w1.trace ++ r2.trace ++ w2.trace ++ r3.trace ++ w3.trace⟩
    else ⟨l.bus, l.ret, l.trace⟩

/-- Embedding of OV5640_Init (src/ov5640.c lines 134-452): no-op success
when already initialized; otherwise validate resolution and pixel format,
apply the common table (guarded loop), configure the serial or parallel
interface, apply resolution-, format- and polarity-specific settings, and
mark the handle initialized only when every step succeeded. -/
def OV5640_Init {σ : Type} (B : Bus σ) (s : σ) (pObj : OV5640_Object)
    (Resolution PixelFormat : Nat) : DOut σ :=
  if pObj.IsInitialized = 0 then
    if Resolution > OV5640_R800x480 ∨
        (PixelFormat ≠ OV5640_RGB565 ∧ PixelFormat ≠ OV5640_YUV422 ∧
         PixelFormat ≠ OV5640_RGB888 ∧ PixelFormat ≠ OV5640_Y8 ∧
         PixelFormat ≠ OV5640_JPEG) then
      ⟨s, pObj, OV5640_ERROR, []⟩
    else
      let c := applyTableGuarded B s OV5640_OK OV5640_Common
      let m : WOut σ :=
        if c.ret = OV5640_OK then
          if pObj.Mode = SERIAL_MODE then
            let e := OV5640_EnableMIPIMode B c.bus pObj
            if e.ret ≠ OV5640_OK then ⟨e.bus, OV5640_ERROR, e.trace⟩
            else
              let v := OV5640_SetMIPIVirtualChannel B e.bus pObj pObj.VirtualChannelID
              if v.ret ≠ OV5640_OK then ⟨v.bus, OV5640_ERROR, e.trace ++ v.trace⟩
              else ⟨v.bus, OV5640_OK, e.trace ++ v.trace⟩
          else
            let d := OV5640_EnableDVPMode B c.bus pObj
            if d.ret ≠ OV5640_OK then ⟨d.bus, OV5640_ERROR, d.trace⟩
            else ⟨d.bus, OV5640_OK, d.trace⟩
        else ⟨c.bus, c.ret, []⟩
      if m.ret = OV5640_OK then
        let r := OV5640_SetResolution B m.bus pObj Resolution
        if r.ret ≠ OV5640_OK then ⟨r.bus, pObj, OV5640_ERROR, c.trace ++ m.trace ++ r.trace⟩
        else
          let pf := OV5640_SetPixelFormat B r.bus pObj PixelFormat
          if pf.ret ≠ OV5640_OK then
            ⟨pf.bus, pObj, OV5640_ERROR, c.trace ++ m.trace ++ r.trace ++ pf.trace⟩
          else
            let pol := OV5640_SetPolarities B pf.bus (some pObj) OV5640_POLARITY_PCLK_HIGH
                OV5640_POLARITY_HREF_HIGH OV5640_POLARITY_VSYNC_HIGH
            if pol.ret ≠ OV5640_OK then
              ⟨pol.bus, pObj, OV5640_ERROR,
                c.trace ++ m.trace ++ r.trace ++ pf.trace ++ pol.trace⟩
            else
              ⟨pol.bus,
                ⟨1, pObj.Mode, pObj.VirtualChannelID, pObj.bright, pObj.saturation,
                  pObj.contrast, pObj.huedegree⟩,
                OV5640_OK, c.trace ++ m.trace ++ r.trace ++ pf.trace ++ pol.trace⟩
      else ⟨m.bus, pObj, m.ret, c.trace ++ m.trace⟩
  else ⟨s, pObj, OV5640_OK, []⟩

/-- The 9-entry brightness lookup table of OV5640_SetBrightness
(src/ov5640.c line 1273). -/
def brightness_level : List Nat := [0x40, 0x30, 0x20, 0x10, 0x00, 0x10, 0x20, 0x30, 0x40]

/-- The 9-entry saturation lookup table of OV5640_SetSaturation
(src/ov5640.c line 1319). -/
def saturation_level : List Nat := [0x00, 0x10, 0x20, 0x30, 0x40, 0x50, 0x60, 0x70, 0x80]

/-- The 9-entry contrast lookup table of OV5640_SetContrast (src/ov5640.c
line 1360). -/
def contrast_level : List Nat := [0x10, 0x14, 0x18, 0x1C, 0x20, 0x24, 0x28, 0x2C, 0x30]

/-- The 12-entry hue lookup table for SDE_CTRL1 (src/ov5640.c lines
1398-1399). -/
def hue_degree_ctrl1 : List Nat :=
  [0x80, 0x6F, 0x40, 0x00, 0x40, 0x6F, 0x80, 0x6F, 0x40, 0x00, 0x40, 0x6F]

/-- The 12-entry hue lookup table for SDE_CTRL2 (src/ov5640.c lines
1400-1401). -/
def hue_degree_ctrl2 : List Nat :=
  [0x00, 0x40, 0x6F, 0x80, 0x6F, 0x40, 0x00, 0x40, 0x6F, 0x80, 0x6F, 0x40]

/-- The 12-entry hue lookup table for the persisted SDE_CTRL8 hue code
(src/ov5640.c lines 1402-1403). -/
def hue_degree_ctrl8 : List Nat :=
  [0x32, 0x32, 0x32, 0x02, 0x02, 0x02, 0x01, 0x01, 0x01, 0x31, 0x31, 0x31]

/-- Embedding of OV5640_SetBrightness (src/ov5640.c lines 1271-1306):
unlock manual SDE, write the level byte to SDE_CTRL7, re-enable the SDE
control bit, then persist the brightness code (0x01 for negative levels,
0x09 otherwise) and write the OR-composite of the four persisted codes to
SDE_CTRL8.  The table access `brightness_level[Level + 4]` has no bounds
check; `none` models the out-of-bounds access.  This setter returns the
raw status of a failed early write (it has no final error
normalization). -/
def OV5640_SetBrightness {σ : Type} (B : Bus σ) (s : σ) (pObj : OV5640_Object)
    (Level : Int) : Option (DOut σ) :=
  let w1 := ov5640_write_reg B s OV5640_ISP_CONTROL01 0xFF
  if w1.ret ≠ OV5640_OK then some ⟨w1.bus, pObj, w1.ret, w1.trace⟩
  else
    match tblIdx brightness_level (Level + 4) with
    | none => none
    | some v =>
      let w2 := ov5640_write_reg B w1.bus OV5640_SDE_CTRL7 v
      if w2.ret ≠ OV5640_OK then some ⟨w2.bus, pObj, w2.ret, w1.trace ++ w2.trace⟩
      else
        let w3 := ov5640_write_reg B w2.bus OV5640_SDE_CTRL0 0x07
        if w3.ret ≠ OV5640_OK then
          some ⟨w3.bus, pObj, w3.ret, w1.trace ++ w2.trace ++ w3.trace⟩
        else
          let obj1 : OV5640_Object :=
            ⟨pObj.IsInitialized, pObj.Mode, pObj.VirtualChannelID,
              if Level < 0 then 0x01 else 0x09,
              pObj.saturation, pObj.contrast, pObj.huedegree⟩
          let tmp := (obj1.contrast ||| obj1.bright ||| obj1.huedegree ||| obj1.saturation) &&& 0xFF
          let w4 := ov5640_write_reg B w3.bus OV5640_SDE_CTRL8 tmp
          if w4.ret ≠ OV5640_OK then
            some ⟨w4.bus, obj1, OV5640_ERROR, w1.trace ++ w2.trace ++ w3.trace ++ w4.trace⟩
          else
            some ⟨w4.bus, obj1, OV5640_OK, w1.trace ++ w2.trace ++ w3.trace ++ w4.trace⟩

/-- Embedding of OV5640_SetSaturation (src/ov5640.c lines 1317-1348):
unlock manual SDE, write the level byte to SDE_CTRL3 and SDE_CTRL4,
re-enable the SDE control bit, then persist the saturation code 0x41 and
write the OR-composite of the four persisted codes to SDE_CTRL8; any
failure is normalized to OV5640_ERROR at the end. -/
def OV5640_SetSaturation {σ : Type} (B : Bus σ) (s : σ) (pObj : OV5640_Object)
    (Level : Int) : Option (DOut σ) :=
  let w1 := ov5640_write_reg B s OV5640_ISP_CONTROL01 0xFF
  if w1.ret ≠ OV5640_OK then some ⟨w1.bus, pObj, OV5640_ERROR, w1.trace⟩
  else
    match tblIdx saturation_level (Level + 4) with
    | none => none
    | some v =>
      let w2 := ov5640_write_reg B w1.bus OV5640_SDE_CTRL3 v
      if w2.ret ≠ OV5640_OK then some ⟨w2.bus, pObj, OV5640_ERROR, w1.trace ++ w2.trace⟩
      else
        let w3 := ov5640_write_reg B w2.bus OV5640_SDE_CTRL4 v
        if w3.ret ≠ OV5640_OK then
          some ⟨w3.bus, pObj, OV5640_ERROR, w1.trace ++ w2.trace ++ w3.trace⟩
        else
          let w4 := ov5640_write_reg B w3.bus OV5640_SDE_CTRL0 0x07
          if w4.ret ≠ OV5640_OK then
            some ⟨w4.bus, pObj, OV5640_ERROR, w1.trace ++ w2.trace ++ w3.trace ++ w4.trace⟩
          else
            let obj1 : OV5640_Object :=
              ⟨pObj.IsInitialized, pObj.Mode, pObj.VirtualChannelID, pObj.bright,
                0x41, pObj.contrast, pObj.huedegree⟩
            let tmp :=
              (obj1.contrast ||| obj1.bright ||| obj1.huedegree ||| obj1.saturation) &&& 0xFF
            let w5 := ov5640_write_reg B w4.bus OV5640_SDE_CTRL8 tmp
            if w5.ret ≠ OV5640_OK then
              some ⟨w5.bus, obj1, OV5640_ERROR,
                w1.trace ++ w2.trace ++ w3.trace ++ w4.trace ++ w5.trace⟩
            else
              some ⟨w5.bus, obj1, OV5640_OK,
                w1.trace ++ w2.trace ++ w3.trace ++ w4.trace ++ w5.trace⟩

/-- Embedding of OV5640_SetContrast (src/ov5640.c lines 1358-1388): unlock
manual SDE, enable the SDE control bit, write the level byte to SDE_CTRL6
and SDE_CTRL5, then persist the contrast code 0x41 and write the
OR-composite of the four persisted codes to SDE_CTRL8; any failure is
normalized to OV5640_ERROR at the end. -/
def OV5640_SetContrast {σ : Type} (B : Bus σ) (s : σ) (pObj : OV5640_Object)
    (Level : Int) : Option (DOut σ) :=
  let w1 := ov5640_write_reg B s OV5640_ISP_CONTROL01 0xFF
  if w1.ret ≠ OV5640_OK then some ⟨w1.bus, pObj, OV5640_ERROR, w1.trace⟩
  else
    let w2 := ov5640_write_reg B w1.bus OV5640_SDE_CTRL0 0x07
    if w2.ret ≠ OV5640_OK then some ⟨w2.bus, pObj, OV5640_ERROR, w1.trace ++ w2.trace⟩
    else
      match tblIdx contrast_level (Level + 4) with
      | none => none
      | some v =>
        let w3 := ov5640_write_reg B w2.bus OV5640_SDE_CTRL6 v
        if w3.ret ≠ OV5640_OK then
          some ⟨w3.bus, pObj, OV5640_ERROR, w1.trace ++ w2.trace ++ w3.trace⟩
        else
          let w4 := ov5640_write_reg B w3.bus OV5640_SDE_CTRL5 v
          if w4.ret ≠ OV5640_OK then
            some ⟨w4.bus, pObj, OV5640_ERROR, w1.trace ++ w2.trace ++ w3.trace ++ w4.trace⟩
          else
            let obj1 : OV5640_Object :=
              ⟨pObj.IsInitialized, pObj.Mode, pObj.VirtualChannelID, pObj.bright,
                pObj.saturation, 0x41, pObj.huedegree⟩
            let tmp :=
              (obj1.contrast ||| obj1.bright ||| obj1.huedegree ||| obj1.saturation) &&& 0xFF
            let w5 := ov5640_write_reg B w4.bus OV5640_SDE_CTRL8 tmp
            if w5.ret ≠ OV5640_OK then
              some ⟨w5.bus, obj1, OV5640_ERROR,
                w1.trace ++ w2.trace ++ w3.trace ++ w4.trace ++ w5.trace⟩
            else
              some ⟨w5.bus, obj1, OV5640_OK,
                w1.trace ++ w2.trace ++ w3.trace ++ w4.trace ++ w5.trace⟩

/-- Embedding of OV5640_SetHueDegree (src/ov5640.c lines 1396-1432):
unlock manual SDE, enable the SDE control bit, write the two hue bytes to
SDE_CTRL1 and SDE_CTRL2, then persist the hue code from hue_degree_ctrl8
and write the OR-composite of the four persisted codes to SDE_CTRL8; any
failure is normalized to OV5640_ERROR at the end.  All three table
accesses use index `Degree + 6` with no bounds check. -/
def OV5640_SetHueDegree {σ : Type} (B : Bus σ) (s : σ) (pObj : OV5640_Object)
    (Degree : Int) : Option (DOut σ) :=
  let w1 := ov5640_write_reg B s OV5640_ISP_CONTROL01 0xFF
  if w1.ret ≠ OV5640_OK then some ⟨w1.bus, pObj, OV5640_ERROR, w1.trace⟩
  else
    let w2 := ov5640_write_reg B w1.bus OV5640_SDE_CTRL0 0x07
    if w2.ret ≠ OV5640_OK then some ⟨w2.bus, pObj, OV5640_ERROR, w1.trace ++ w2.trace⟩
    else
      match tblIdx hue_degree_ctrl1 (Degree + 6) with
      | none => none
      | some v1 =>
        let w3 := ov5640_write_reg B w2.bus OV5640_SDE_CTRL1 v1
        if w3.ret ≠ OV5640_OK then
          some ⟨w3.bus, pObj, OV5640_ERROR, w1.trace ++ w2.trace ++ w3.trace⟩
        else
          match tblIdx hue_degree_ctrl2 (Degree + 6) with
          | none => none
          | some v2 =>
            let w4 := ov5640_write_reg B w3.bus OV5640_SDE_CTRL2 v2
            if w4.ret ≠ OV5640_OK then
              some ⟨w4.bus, pObj, OV5640_ERROR, w1.trace ++ w2.trace ++ w3.trace ++ w4.trace⟩
            else
              match tblIdx hue_degree_ctrl8 (Degree + 6) with
              | none => none
              | some h8 =>
                let obj1 : OV5640_Object :=
                  ⟨pObj.IsInitialized, pObj.Mode, pObj.VirtualChannelID, pObj.bright,
                    pObj.saturation, pObj.contrast, h8⟩
                let tmp :=
                  (obj1.contrast ||| obj1.bright ||| obj1.huedegree ||| obj1.saturation) &&& 0xFF
                let w5 := ov5640_write_reg B w4.bus OV5640_SDE_CTRL8 tmp
                if w5.ret ≠ OV5640_OK then
                  some ⟨w5.bus, obj1, OV5640_ERROR,
                    w1.trace ++ w2.trace ++ w3.trace ++ w4.trace ++ w5.trace⟩
                else
                  some ⟨w5.bus, obj1, OV5640_OK,
                    w1.trace ++ w2.trace ++ w3.trace ++ w4.trace ++ w5.trace⟩

/-- Embedding of OV5640_MirrorFlipConfig (src/ov5640.c lines 1440-1510):
read both timing-control registers, mask off bits 2:1 with 0xF9, then
write them back with the fixed 0x06 pattern OR-ed into register 0x3821
for mirror, into 0x3820 for flip, into both for mirror+flip, and into
neither for none (the switch default also selects none). -/
def OV5640_MirrorFlipConfig {σ : Type} (B : Bus σ) (s : σ) (pObj : OV5640_Object)
    (Config : Nat) : WOut σ :=
  let r1 := ov5640_read_reg B s OV5640_TIMING_TC_REG20
  if r1.ret ≠ OV5640_OK then ⟨r1.bus, OV5640_ERROR, r1.trace⟩
  else
    let tmp3820 := r1.val &&& 0xF9
    let r2 := ov5640_read_reg B r1.bus OV5640_TIMING_TC_REG21
    if r2.ret ≠ OV5640_OK then ⟨r2.bus, OV5640_ERROR, r1.trace ++ r2.trace⟩
    else
      let tmp3821 := r2.val &&& 0xF9
      let v20 :=
        if Config = OV5640_MIRROR then tmp3820
        else if Config = OV5640_FLIP then tmp3820 ||| 0x06
        else if Config = OV5640_MIRROR_FLIP then tmp3820 ||| 0x06
        else tmp3820
      let v21 :=
        if Config = OV5640_MIRROR then tmp3821 ||| 0x06
        else if Config = OV5640_FLIP then tmp3821
        else if Config = OV5640_MIRROR_FLIP then tmp3821 ||| 0x06
        else tmp3821
      let w1 := ov5640_write_reg B r2.bus OV5640_TIMING_TC_REG20 v20
      if w1.ret ≠ OV5640_OK then ⟨w1.bus, OV5640_ERROR, r1.trace ++ r2.trace ++ w1.trace⟩
      else
        let w2 := ov5640_write_reg B w1.bus OV5640_TIMING_TC_REG21 v21
        if w2.ret ≠ OV5640_OK then
          ⟨w2.bus, OV5640_ERROR, r1.trace ++ r2.trace ++ w1.trace ++ w2.trace⟩
        else ⟨w2.bus, OV5640_OK, r1.trace ++ r2.trace ++ w1.trace ++ w2.trace⟩

/-- Embedding of OV5640_OutSize_Set (src/ov5640.c lines 2594-2622): the
local 11-entry table (group-hold start, output width/height, offset,
group-hold commit) applied with the unguarded loop (the source loop has
no early exit); parameters are uint16_t. -/
def OV5640_OutSize_Set {σ : Type} (B : Bus σ) (s : σ) (pObj : OV5640_Object)
    (offx offy width height : Nat) : WOut σ :=
  let ox := offx &&& 0xFFFF
  let oy := offy &&& 0xFFFF
  let w := width &&& 0xFFFF
  let h := height &&& 0xFFFF
  let datas : List (Nat × Nat) := [
    (0x3212, 0x03),
    (0x3808, w >>> 8),
    (0x3809, w &&& 0xff),
    (0x380a, h >>> 8),
    (0x380b, h &&& 0xff),
    (0x3810, ox >>> 8),
    (0x3811, ox &&& 0xff),
    (0x3812, oy >>> 8),
    (0x3813, oy &&& 0xff),
    (0x3212, 0x13),
    (0x3212, 0xa3)]
  applyTableUnguarded B s OV5640_OK datas

/-- Embedding of OV5640_JPEG_Mode (src/ov5640.c lines 2661-2675): the
41-entry JPEG register table applied with the unguarded loop (the source
loop has no early exit). -/
def OV5640_JPEG_Mode {σ : Type} (B : Bus σ) (s : σ) (pObj : OV5640_Object) : WOut σ :=
  applyTableUnguarded B s OV5640_OK OV5640_jpeg_reg_tbl

/-- The polling loop of OV5640_Focus_Single (src/ov5640.c lines
2810-2818): each iteration increments retry, reads the status register
0x3029, exits successfully when it reads the sentinel 0x10, and gives up
with OV5640_ERROR once the incremented retry count exceeds 200 — so the
loop performs up to 201 reads and honors the sentinel on every one of
them.  The loop is embedded structurally over the number of reads still
allowed (`fuel` = 201 - retry, so the source's `retry > 200` exit is
`fuel = 0` after the read); the fuel-0 base case is never entered from
OV5640_Focus_Single, which starts at retry = 0. -/
def OV5640_Focus_Single_poll {σ : Type} (B : Bus σ) : σ → Nat → WOut σ
  | s, 0 => ⟨s, OV5640_ERROR, []⟩
  | s, fuel + 1 =>
    let r := ov5640_read_reg B s 0x3029
    if r.val = 0x10 then ⟨r.bus, OV5640_OK, r.trace⟩
    else if fuel = 0 then ⟨r.bus, OV5640_ERROR, r.trace⟩
    else
      let nxt := OV5640_Focus_Single_poll B r.bus fuel
      ⟨nxt.bus, nxt.ret, r.trace ++ nxt.trace⟩

/-- Embedding of OV5640_Focus_Single (src/ov5640.c lines 2804-2820):
trigger the single-shot command (write status ignored), then poll. -/
def OV5640_Focus_Single {σ : Type} (B : Bus σ) (s : σ) (pObj : OV5640_Object) : WOut σ :=
  let w := ov5640_write_reg B s 0x3022 0x03
  let p := OV5640_Focus_Single_poll B w.bus 201
  ⟨p.bus, p.ret, w.trace ++ p.trace⟩

/-- One polling phase of OV5640_Focus_Constant (src/ov5640.c lines
2830-2837 and 2843-2850): each iteration reads the status register
0x3023, then increments retry and gives up with OV5640_ERROR once it
exceeds 200 (discarding the value of that final, 201st read); otherwise
the phase ends when the read value is 0x00.  The loop is embedded
structurally over the number of reads still allowed (`fuel` = 201 -
retry, so the source's `retry > 200` exit is `fuel = 0` after the read);
the fuel-0 base case is never entered from OV5640_Focus_Constant, which
starts each phase at retry = 0. -/
def OV5640_Focus_Constant_poll {σ : Type} (B : Bus σ) : σ → Nat → WOut σ
  | s, 0 => ⟨s, OV5640_ERROR, []⟩
  | s, fuel + 1 =>
    let r := ov5640_read_reg B s 0x3023
    if fuel = 0 then ⟨r.bus, OV5640_ERROR, r.trace⟩
    else if r.val = 0x00 then ⟨r.bus, OV5640_OK, r.trace⟩
    else
      let nxt := OV5640_Focus_Constant_poll B r.bus fuel
      ⟨nxt.bus, nxt.ret, r.trace ++ nxt.trace⟩

/-- Embedding of OV5640_Focus_Constant (src/ov5640.c lines 2822-2852):
clear status / issue command / poll for status-cleared, twice (write
statuses ignored); each polling phase is bounded as in
OV5640_Focus_Constant_poll. -/
def OV5640_Focus_Constant {σ : Type} (B : Bus σ) (s : σ) (pObj : OV5640_Object) : WOut σ :=
  let w1 := ov5640_write_reg B s 0x3023 0x01
  let w2 := ov5640_write_reg B w1.bus 0x3022 0x08
  let p1 := OV5640_Focus_Constant_poll B w2.bus 201
  if p1.ret ≠ OV5640_OK then ⟨p1.bus, OV5640_ERROR, w1.trace ++ w2.trace ++ p1.trace⟩
  else
    let w3 := ov5640_write_reg B p1.bus 0x3023 0x01
    let w4 := ov5640_write_reg B w3.bus 0x3022 0x04
    let p2 := OV5640_Focus_Constant_poll B w4.bus 201
    if p2.ret ≠ OV5640_OK then
      ⟨p2.bus, OV5640_ERROR, w1.trace ++ w2.trace ++ p1.trace ++ w3.trace ++ w4.trace ++ p2.trace⟩
    else
      ⟨p2.bus, OV5640_OK, w1.trace ++ w2.trace ++ p1.trace ++ w3.trace ++ w4.trace ++ p2.trace⟩

/-- Embedding of OV5640_Focus_Send_Single (src/ov5640.c lines 2854-2859):
fire the single-shot trigger write and return OV5640_OK unconditionally
(the write status is discarded). -/
def OV5640_Focus_Send_Single {σ : Type} (B : Bus σ) (s : σ) (pObj : OV5640_Object) : WOut σ :=
  let w := ov5640_write_reg B s 0x3022 0x03
  ⟨w.bus, OV5640_OK, w.trace⟩

/-- Embedding of OV5640_Focus_Send_Constant_IDLE (src/ov5640.c lines
2870-2879): clear status and issue the idle command, returning OV5640_OK
unconditionally (both write statuses are discarded). -/
def OV5640_Focus_Send_Constant_IDLE {σ : Type} (B : Bus σ) (s : σ)
    (pObj : OV5640_Object) : WOut σ :=
  let w1 := ov5640_write_reg B s 0x3023 0x01
  let w2 := ov5640_write_reg B w1.bus 0x3022 0x08
  ⟨w2.bus, OV5640_OK, w1.trace ++ w2.trace⟩

/-- Embedding of OV5640_Focus_Send_Constant_Focus (src/ov5640.c lines
2890-2899): clear status and issue the continuous-focus command,
returning OV5640_OK unconditionally (both write statuses are
discarded). -/
def OV5640_Focus_Send_Constant_Focus {σ : Type} (B : Bus σ) (s : σ)
    (pObj : OV5640_Object) : WOut σ :=
  let w1 := ov5640_write_reg B s 0x3023 0x01
  let w2 := ov5640_write_reg B w1.bus 0x3022 0x04
  ⟨w2.bus, OV5640_OK, w1.trace ++ w2.trace⟩

/-- The firmware-upload loop of OV5640_Focus_Init (src/ov5640.c lines
2777-2781): one write per byte at consecutive addresses starting from the
running address, write statuses ignored. -/
def OV5640_Focus_Init_upload {σ : Type} (B : Bus σ) : σ → Nat → List Nat → σ × List BusOp
  | s, _, [] => (s, [])
  | s, addr, b :: rest =>
    let w := ov5640_write_reg B s addr b
    let r := OV5640_Focus_Init_upload B w.bus (addr + 1) rest
    (r.1, w.trace ++ r.2)

/-- The release loop of OV5640_Focus_Init (src/ov5640.c lines 2783-2789):
it iterates once per entry of `datas2` (sizeof(datas2)/4 = 9 iterations,
embedded structurally by walking the entries of `datas2` while keeping
the running `index`) but reads `datas[index]`, the one-entry halt table;
its result is the trace of writes issued together with `none` when an
iteration accesses `datas` out of bounds (as the C code does for every
index ≥ 1), or the final bus state and status otherwise. -/
def OV5640_Focus_Init_release {σ : Type} (B : Bus σ) :
    σ → Nat → List (Nat × Nat) → Int → List BusOp × Option (σ × Int)
  | s, _, [], ret => ([], some (s, ret))
  | s, index, _ :: rest2, ret =>
    match OV5640_Focus_Init_datas.get? index with
    | none => ([], none)
    | some e =>
      let w := ov5640_write_reg B s e.1 (e.2 &&& 0xFF)
      let ret1 := if w.ret ≠ OV5640_OK then OV5640_ERROR else ret
      let r := OV5640_Focus_Init_release B w.bus (index + 1) rest2 ret1
      (w.trace ++ r.1, r.2)

/-- The ready-poll loop of OV5640_Focus_Init (src/ov5640.c lines
2791-2800): each iteration reads the status register 0x3029 (read status
ignored), increments the iteration count and returns the bare failure
code 1 once it exceeds 1000 (without looking at that final read's
value); otherwise it exits with the incoming status when the read value
is the ready sentinel 0x70.  Embedded structurally over the number of
reads still allowed (`fuel` = 1001 - i); the fuel-0 base case is never
entered from OV5640_Focus_Init, which starts at i = 0. -/
def OV5640_Focus_Init_poll {σ : Type} (B : Bus σ) : σ → Nat → Int → WOut σ
  | s, 0, _ => ⟨s, 1, []⟩
  | s, fuel + 1, ret =>
    let r := ov5640_read_reg B s 0x3029
    if fuel = 0 then ⟨r.bus, 1, r.trace⟩
    else if r.val = 0x70 then ⟨r.bus, ret, r.trace⟩
    else
      let nxt := OV5640_Focus_Init_poll B r.bus fuel ret
      ⟨nxt.bus, nxt.ret, r.trace ++ nxt.trace⟩

/-- Embedding of OV5640_Focus_Init (src/ov5640.c lines 2752-2802): write
the halt command datas[0] = (0x3000, 0x20), upload OV5640_AF_Config
byte-by-byte starting at address 0x8000, run the release loop, then (if
the release loop completed without an out-of-bounds access) poll for the
ready sentinel.  The result is the trace of bus operations issued
together with `none` if an out-of-bounds array access occurred, or the
final bus state and returned status. -/
def OV5640_Focus_Init {σ : Type} (B : Bus σ) (s : σ) (pObj : OV5640_Object) :
    List BusOp × Option (σ × Int) :=
  let w := ov5640_write_reg B s 0x3000 0x20
  let u := OV5640_Focus_Init_upload B w.bus 0x8000 OV5640_AF_Config
  let rel := OV5640_Focus_Init_release B u.1 0 OV5640_Focus_Init_datas2 OV5640_OK
  match rel.2 with
  | none => (w.trace ++ u.2 ++ rel.1, none)
  | some p =>
    let q := OV5640_Focus_Init_poll B p.1 1001 p.2
    (w.trace ++ u.2 ++ rel.1 ++ q.trace, some (q.bus, q.ret))

/-- A bus stub that accepts every write and returns 0 with success for
every read; its state is trivial. -/
def okBus : Bus Unit :=
  ⟨fun s _ _ => (s, OV5640_OK), fun s _ => (s, 0, OV5640_OK)⟩

/-- A bus stub whose writes always fail; its state counts the writes
issued (reads also fail and return 0). -/
def countFailBus : Bus Nat :=
  ⟨fun n _ _ => (n + 1, OV5640_ERROR), fun n _ => (n, 0, OV5640_ERROR)⟩

/-- The canonical register-file bus: the state maps each address to the
byte last written, reads return the stored value, and every transaction
succeeds. -/
def regBus : Bus (Nat → Nat) :=
  ⟨fun f r v => (fun a => if a = r then v else f a, OV5640_OK),
   fun f r => (f, f r, OV5640_OK)⟩

/-- A bus whose state counts reads; every read (of any register) returns
`sentinel` on the k-th read issued and `defaultv` on every other; writes
succeed without touching the state. -/
def sentinelBus (defaultv sentinel k : Nat) : Bus Nat :=
  ⟨fun n _ _ => (n, OV5640_OK),
   fun n _ => (n + 1, if n + 1 = k then sentinel else defaultv, OV5640_OK)⟩

/-- The handle as seeded by the bus-binding registration
OV5640_RegisterBusIO-lines 110-113 of src/ov5640.c: tuning defaults
bright 0x01, saturation 0x41, contrast 0x41, huedegree 0x32; not yet
initialized; parallel mode; virtual channel 0. -/
def OV5640_defaultObj : OV5640_Object := ⟨0, 0, 0, 0x01, 0x41, 0x41, 0x32⟩

/-- The register writes in a trace that target the given register. -/
def writesTo (reg : Nat) (t : List BusOp) : List BusOp :=
  t.filter (fun op => match op with
    | BusOp.wr r _ => r == reg
    | BusOp.rd _ => false)

/-- Number of register reads in a trace. -/
def rdCount (t : List BusOp) : Nat :=
  t.countP (fun op => match op with
    | BusOp.rd _ => true
    | BusOp.wr _ _ => false)

/-- The write sequence a register table induces when applied in order:
one write per entry, with the uint8_t cast of the table value. -/
def tableWrites (t : List (Nat × Nat)) : List BusOp :=
  t.map (fun e => BusOp.wr e.1 (e.2 &&& 0xFF))

/-- The write sequence of the firmware-upload loop: one write per byte at
consecutive addresses. -/
def uploadWrites : Nat → List Nat → List BusOp
  | _, [] => []
  | addr, b :: rest => BusOp.wr addr b :: uploadWrites (addr + 1) rest

/-- Concrete result of OV5640_SetBrightness on the always-succeeding bus
at Level 2 from the registration-default handle (witness support). -/
def outB_w : DOut Unit :=
  ⟨(), ⟨0, 0, 0, 0x09, 0x41, 0x41, 0x32⟩, OV5640_OK,
    [BusOp.wr 0x5001 0xFF, BusOp.wr 0x5587 0x20, BusOp.wr 0x5580 0x07, BusOp.wr 0x5588 0x7B]⟩

/-- Concrete result of OV5640_SetSaturation on the always-succeeding bus
at Level 2 from the registration-default handle (witness support). -/
def outS_w : DOut Unit :=
  ⟨(), ⟨0, 0, 0, 0x01, 0x41, 0x41, 0x32⟩, OV5640_OK,
    [BusOp.wr 0x5001 0xFF, BusOp.wr 0x5583 0x60, BusOp.wr 0x5584 0x60, BusOp.wr 0x5580 0x07,
      BusOp.wr 0x5588 0x73]⟩

/-- Concrete result of OV5640_SetContrast on the always-succeeding bus
at Level 2 from the registration-default handle (witness support). -/
def outC_w : DOut Unit :=
  ⟨(), ⟨0, 0, 0, 0x01, 0x41, 0x41, 0x32⟩, OV5640_OK,
    [BusOp.wr 0x5001 0xFF, BusOp.wr 0x5580 0x07, BusOp.wr 0x5586 0x28, BusOp.wr 0x5585 0x28,
      BusOp.wr 0x5588 0x73]⟩

/-- Concrete result of OV5640_SetHueDegree on the always-succeeding bus
at Degree 3 from the registration-default handle (witness support). -/
def outH_w : DOut Unit :=
  ⟨(), ⟨0, 0, 0, 0x01, 0x41, 0x41, 0x31⟩, OV5640_OK,
    [BusOp.wr 0x5001 0xFF, BusOp.wr 0x5580 0x07, BusOp.wr 0x5581 0x00, BusOp.wr 0x5582 0x80,
      BusOp.wr 0x5588 0x71]⟩

/-- A byte-sized value is unchanged by the 0xFF mask. -/
theorem byte_and_255 {x : Nat} (h : x < 256) : x &&& 255 = x := by
  have h2 : x &&& 255 = x % 256 := by
    have := Nat.and_pow_two_sub_one_eq_mod x 8
    norm_num at this
    exact this
  rw [h2, Nat.mod_eq_of_lt h]

/-- The 0xFF mask yields a byte. -/
theorem and255_lt (x : Nat) : x &&& 255 < 256 :=
  Nat.lt_succ_of_le Nat.and_le_right

/-- The OR of four bytes is a byte, so the uint8_t truncation of the
composite tuning value is the identity. -/
theorem or4_byte {a b c d : Nat} (ha : a < 256) (hb : b < 256) (hc : c < 256)
    (hd : d < 256) : (a ||| b ||| c ||| d) &&& 255 = a ||| b ||| c ||| d := by
  have h8 : (256 : Nat) = 2 ^ 8 := by norm_num
  rw [h8] at ha hb hc hd
  exact byte_and_255 (h8 ▸ Nat.or_lt_two_pow (Nat.or_lt_two_pow (Nat.or_lt_two_pow ha hb) hc) hd)

/-- Once ret is OV5640_ERROR, the guarded table loop issues nothing: the
bus state is untouched and the trace is empty. -/
theorem applyTableGuarded_error {σ : Type} (B : Bus σ) (s : σ) (table : List (Nat × Nat)) :
    applyTableGuarded B s OV5640_ERROR table = ⟨s, OV5640_ERROR, []⟩ := by
  induction table with
  | nil => rfl
  | cons e rest ih => simp [applyTableGuarded, ih]

/-- The guarded table loop writes a prefix of the table, in table order
and one write per entry. -/
theorem applyTableGuarded_trace_prefix {σ : Type} (B : Bus σ) (table : List (Nat × Nat)) :
    ∀ (s : σ) (ret : Int), ∃ m,
      (applyTableGuarded B s ret table).trace = tableWrites (table.take m) := by
  induction table with
  | nil => exact fun s ret => ⟨0, rfl⟩
  | cons e rest ih =>
    intro s ret
    by_cases hr : ret = OV5640_ERROR
    · subst hr
      exact ⟨0, by rw [applyTableGuarded_error]; rfl⟩
    · obtain ⟨m, hm⟩ := ih (ov5640_write_reg B s e.1 (e.2 &&& 0xFF)).bus
        (if (ov5640_write_reg B s e.1 (e.2 &&& 0xFF)).ret ≠ OV5640_OK then OV5640_ERROR else ret)
      refine ⟨m + 1, ?_⟩
      simp [applyTableGuarded, hr, tableWrites, ov5640_write_reg] at hm ⊢
      exact hm

/-- The unguarded table loop writes every entry, in table order and one
write per entry, whatever the bus returns. -/
theorem applyTableUnguarded_trace {σ : Type} (B : Bus σ) (table : List (Nat × Nat)) :
    ∀ (s : σ) (ret : Int), (applyTableUnguarded B s ret table).trace = tableWrites table := by
  induction table with
  | nil => exact fun s ret => rfl
  | cons e rest ih =>
    intro s ret
    simp [applyTableUnguarded, tableWrites, ov5640_write_reg]
    simpa [tableWrites] using ih _ _

/-- C3: if the handle's IsInitialized flag is 1 on entry, OV5640_Init is
a no-op success: it returns OV5640_OK, issues no bus read or write
(empty trace), and leaves both the handle and the bus state unchanged. -/
theorem claim_C3_init_noop_when_initialized {σ : Type} (B : Bus σ) (s : σ)
    (pObj : OV5640_Object) (Resolution PixelFormat : Nat)
    (h1 : pObj.IsInitialized = 1) :
    OV5640_Init B s pObj Resolution PixelFormat = ⟨s, pObj, OV5640_OK, []⟩ := by
  unfold OV5640_Init
  rw [if_neg]
  omega

/-- C3 witness: on an already-initialized handle OV5640_Init over the
always-succeeding bus is the identity no-op success. -/
theorem claim_C3_witness :
    OV5640_Init okBus () ⟨1, 0, 0, 0x01, 0x41, 0x41, 0x32⟩ OV5640_R800x480 OV5640_RGB565 =
      ⟨(), ⟨1, 0, 0, 0x01, 0x41, 0x41, 0x32⟩, OV5640_OK, []⟩ :=
  claim_C3_init_noop_when_initialized okBus () ⟨1, 0, 0, 0x01, 0x41, 0x41, 0x32⟩
    OV5640_R800x480 OV5640_RGB565 rfl

/-- C10: the non-blocking autofocus command senders always return
OV5640_OK, for every bus and bus state — the results of the underlying
trigger writes are discarded, so a failed write is never reported. -/
theorem claim_C10_senders_always_ok {σ : Type} (B : Bus σ) (s : σ) (pObj : OV5640_Object) :
    (OV5640_Focus_Send_Single B s pObj).ret = OV5640_OK ∧
    (OV5640_Focus_Send_Constant_IDLE B s pObj).ret = OV5640_OK ∧
    (OV5640_Focus_Send_Constant_Focus B s pObj).ret = OV5640_OK :=
  ⟨rfl, rfl, rfl⟩

/-- C2 (amended): register-table entries are written strictly in table
order, one bus write per entry.  The guarded loop used by OV5640_Init's
common table writes a prefix of its table and, once a write has failed
(ret = OV5640_ERROR), issues no further write at all; but the loops of
OV5640_OutSize_Set and OV5640_JPEG_Mode have no such guard and write
every entry of their tables regardless of failures (11 resp. 41 writes
on every bus). -/
theorem claim_C2_amended :
    (∀ (σ : Type) (B : Bus σ) (s : σ) (table : List (Nat × Nat)),
        applyTableGuarded B s OV5640_ERROR table = ⟨s, OV5640_ERROR, []⟩) ∧
    (∀ (σ : Type) (B : Bus σ) (s : σ) (ret : Int) (table : List (Nat × Nat)),
        ∃ m, (applyTableGuarded B s ret table).trace = tableWrites (table.take m)) ∧
    (∀ (σ : Type) (B : Bus σ) (s : σ) (pObj : OV5640_Object) (offx offy width height : Nat),
        (OV5640_OutSize_Set B s pObj offx offy width height).trace.length = 11) ∧
    (∀ (σ : Type) (B : Bus σ) (s : σ) (pObj : OV5640_Object),
        (OV5640_JPEG_Mode B s pObj).trace = tableWrites OV5640_jpeg_reg_tbl ∧
        (OV5640_JPEG_Mode B s pObj).trace.length = 41) := by
  refine ⟨fun σ B s table => applyTableGuarded_error B s table,
    fun σ B s ret table => applyTableGuarded_trace_prefix B table s ret,
    fun σ B s pObj offx offy width height => ?_,
    fun σ B s pObj => ?_⟩
  · unfold OV5640_OutSize_Set
    rw [applyTableUnguarded_trace]
    rfl
  · constructor
    · exact applyTableUnguarded_trace B OV5640_jpeg_reg_tbl s OV5640_OK
    · rw [OV5640_JPEG_Mode, applyTableUnguarded_trace]
      rfl

/-- C2 counterexample: on the bus whose writes all fail (its state counts
the writes issued), OV5640_OutSize_Set still issues all 11 writes of its
table — even though its very first write already failed — and returns
the error status; under the claim as stated, only the one failed write
would have been issued. -/
theorem claim_C2_counterexample :
    (OV5640_OutSize_Set countFailBus 0 OV5640_defaultObj 4 0 320 240).bus = 11 ∧
    (OV5640_OutSize_Set countFailBus 0 OV5640_defaultObj 4 0 320 240).ret = OV5640_ERROR ∧
    (OV5640_OutSize_Set countFailBus 0 OV5640_defaultObj 4 0 320 240).trace.length = 11 := by
  decide

/-- C9: OV5640_SetPolarities rejects a null handle or any polarity
argument outside its axis's two accepted sentinel values, returning the
error status without issuing any bus operation; for accepted values it
issues exactly one write, of the packed byte
(Pclk shifted 5) OR (Href shifted 1) OR Vsync, to the polarity control
register. -/
theorem claim_C9_polarity_validation {σ : Type} (B : Bus σ) (s s' : σ)
    (pObjBad pObjGood : Option OV5640_Object) (objG : OV5640_Object)
    (Pb Hb Vb P H V : Nat)
    (hbad : pObjBad = none ∨
      (Pb ≠ OV5640_POLARITY_PCLK_LOW ∧ Pb ≠ OV5640_POLARITY_PCLK_HIGH) ∨
      (Hb ≠ OV5640_POLARITY_HREF_LOW ∧ Hb ≠ OV5640_POLARITY_HREF_HIGH) ∨
      (Vb ≠ OV5640_POLARITY_VSYNC_LOW ∧ Vb ≠ OV5640_POLARITY_VSYNC_HIGH))
    (hgood : pObjGood = some objG)
    (hP : P = OV5640_POLARITY_PCLK_LOW ∨ P = OV5640_POLARITY_PCLK_HIGH)
    (hH : H = OV5640_POLARITY_HREF_LOW ∨ H = OV5640_POLARITY_HREF_HIGH)
    (hV : V = OV5640_POLARITY_VSYNC_LOW ∨ V = OV5640_POLARITY_VSYNC_HIGH) :
    (OV5640_SetPolarities B s pObjBad Pb Hb Vb = ⟨s, OV5640_ERROR, []⟩) ∧
    (OV5640_SetPolarities B s' pObjGood P H V).trace =
      [BusOp.wr OV5640_POLARITY_CTRL ((P <<< 5) ||| (H <<< 1) ||| V)] := by
  constructor
  · unfold OV5640_SetPolarities
    rw [if_pos hbad]
  · unfold OV5640_SetPolarities
    rw [if_neg]
    · rcases hP with hP | hP <;> rcases hH with hH | hH <;> rcases hV with hV | hV <;>
        subst hP <;> subst hH <;> subst hV <;>
        simp [ov5640_write_reg] <;> split <;> rfl
    · rw [hgood]
      rcases hP with hP | hP <;> rcases hH with hH | hH <;> rcases hV with hV | hV <;>
        subst hP <;> subst hH <;> subst hV <;> simp

/-- C9 witness: a null handle (with an out-of-range Pclk value 7) is
rejected with no bus operation, and the accepted all-high triple writes
the packed polarity byte. -/
theorem claim_C9_witness :
    (OV5640_SetPolarities okBus () none 7 0 0 = ⟨(), OV5640_ERROR, []⟩) ∧
    (OV5640_SetPolarities okBus () (some OV5640_defaultObj) 1 1 1).trace =
      [BusOp.wr OV5640_POLARITY_CTRL ((1 <<< 5) ||| (1 <<< 1) ||| 1)] :=
  claim_C9_polarity_validation okBus () () none (some OV5640_defaultObj) OV5640_defaultObj
    7 0 0 1 1 1 (Or.inl rfl) rfl (Or.inr rfl) (Or.inr rfl) (Or.inr rfl)

/-- An in-bounds unchecked array access yields a value. -/
theorem tblIdx_isSome_of_bounds (l : List Nat) (i : Int) (h1 : 0 ≤ i)
    (h2 : i.toNat < l.length) : (tblIdx l i).isSome := by
  unfold tblIdx
  rw [dif_pos ⟨h1, h2⟩]
  rfl

/-- An out-of-bounds unchecked array access is modelled as `none`. -/
theorem tblIdx_none_of_oob (l : List Nat) (i : Int)
    (h : ¬(0 ≤ i ∧ i.toNat < l.length)) : tblIdx l i = none := dif_neg h

/-- A value obtained by an unchecked array access is an element of the
array. -/
theorem tblIdx_mem {l : List Nat} {i : Int} {v : Nat} (h : tblIdx l i = some v) :
    v ∈ l := by
  unfold tblIdx at h
  split at h
  · rename_i hcond
    exact Option.some.inj h ▸ List.get_mem l i.toNat hcond.2
  · exact absurd h (by simp)

/-- C5: for every Level in [-4, +4] the index Level + 4 lies inside the
9-entry brightness/saturation/contrast tables, and for every Degree in
[-6, +5] the index Degree + 6 lies inside the 12-entry hue tables, so
the four tuning setters never perform an out-of-bounds access on such
inputs (over any bus); the setters perform no bounds check, so on any
Level outside [-4, +4] (resp. Degree outside [-6, +5]) the access the
code performs once it reaches the lookup is out of bounds (`none` on the
always-succeeding bus, which always reaches the lookup). -/
theorem claim_C5_index_bounds {σ : Type} (B : Bus σ) (s : σ) (pObj : OV5640_Object)
    (Level Degree BadLevel BadDegree : Int)
    (hL1 : -4 ≤ Level) (hL2 : Level ≤ 4) (hD1 : -6 ≤ Degree) (hD2 : Degree ≤ 5)
    (hBL : BadLevel < -4 ∨ 4 < BadLevel) (hBD : BadDegree < -6 ∨ 5 < BadDegree) :
    (brightness_level.length = 9 ∧ saturation_level.length = 9 ∧
      contrast_level.length = 9 ∧ hue_degree_ctrl1.length = 12 ∧
      hue_degree_ctrl2.length = 12 ∧ hue_degree_ctrl8.length = 12) ∧
    (0 ≤ Level + 4 ∧ (Level + 4).toNat < 9 ∧ 0 ≤ Degree + 6 ∧ (Degree + 6).toNat < 12) ∧
    ((OV5640_SetBrightness B s pObj Level).isSome ∧
      (OV5640_SetSaturation B s pObj Level).isSome ∧
      (OV5640_SetContrast B s pObj Level).isSome ∧
      (OV5640_SetHueDegree B s pObj Degree).isSome) ∧
    (OV5640_SetBrightness okBus () pObj BadLevel = none ∧
      OV5640_SetSaturation okBus () pObj BadLevel = none ∧
      OV5640_SetContrast okBus () pObj BadLevel = none ∧
      OV5640_SetHueDegree okBus () pObj BadDegree = none) := by
  have hlen : brightness_level.length = 9 ∧ saturation_level.length = 9 ∧
      contrast_level.length = 9 ∧ hue_degree_ctrl1.length = 12 ∧
      hue_degree_ctrl2.length = 12 ∧ hue_degree_ctrl8.length = 12 := by
    refine ⟨?_, ?_, ?_, ?_, ?_, ?_⟩ <;> rfl
  have hbnd : 0 ≤ Level + 4 ∧ (Level + 4).toNat < 9 ∧ 0 ≤ Degree + 6 ∧
      (Degree + 6).toNat < 12 := by omega
  have hbBr : ∃ v, tblIdx brightness_level (Level + 4) = some v :=
    Option.isSome_iff_exists.mp
      (tblIdx_isSome_of_bounds _ _ hbnd.1 (by rw [hlen.1]; exact hbnd.2.1))
  have hbSa : ∃ v, tblIdx saturation_level (Level + 4) = some v :=
    Option.isSome_iff_exists.mp
      (tblIdx_isSome_of_bounds _ _ hbnd.1 (by rw [hlen.2.1]; exact hbnd.2.1))
  have hbCo : ∃ v, tblIdx contrast_level (Level + 4) = some v :=
    Option.isSome_iff_exists.mp
      (tblIdx_isSome_of_bounds _ _ hbnd.1 (by rw [hlen.2.2.1]; exact hbnd.2.1))
  have hbH1 : ∃ v, tblIdx hue_degree_ctrl1 (Degree + 6) = some v :=
    Option.isSome_iff_exists.mp
      (tblIdx_isSome_of_bounds _ _ hbnd.2.2.1 (by rw [hlen.2.2.2.1]; exact hbnd.2.2.2))
  have hbH2 : ∃ v, tblIdx hue_degree_ctrl2 (Degree + 6) = some v :=
    Option.isSome_iff_exists.mp
      (tblIdx_isSome_of_bounds _ _ hbnd.2.2.1 (by rw [hlen.2.2.2.2.1]; exact hbnd.2.2.2))
  have hbH8 : ∃ v, tblIdx hue_degree_ctrl8 (Degree + 6) = some v :=
    Option.isSome_iff_exists.mp
      (tblIdx_isSome_of_bounds _ _ hbnd.2.2.1 (by rw [hlen.2.2.2.2.2]; exact hbnd.2.2.2))
  obtain ⟨vB, hvB⟩ := hbBr
  obtain ⟨vS, hvS⟩ := hbSa
  obtain ⟨vC, hvC⟩ := hbCo
  obtain ⟨v1, hv1⟩ := hbH1
  obtain ⟨v2, hv2⟩ := hbH2
  obtain ⟨v8, hv8⟩ := hbH8
  have hnoneL : ∀ l : List Nat, l.length = 9 → tblIdx l (BadLevel + 4) = none := by
    intro l hl
    exact tblIdx_none_of_oob l _ (by rw [hl]; omega)
  have hnoneD : ∀ l : List Nat, l.length = 12 → tblIdx l (BadDegree + 6) = none := by
    intro l hl
    exact tblIdx_none_of_oob l _ (by rw [hl]; omega)
  refine ⟨hlen, hbnd, ⟨?_, ?_, ?_, ?_⟩, ?_, ?_, ?_, ?_⟩
  · unfold OV5640_SetBrightness
    rw [hvB]
    dsimp only
    split
    · rfl
    · split
      · rfl
      · split
        · rfl
        · split <;> split <;> rfl
  · unfold OV5640_SetSaturation
    rw [hvS]
    dsimp only
    split
    · rfl
    · split
      · rfl
      · split
        · rfl
        · split
          · rfl
          · split <;> rfl
  · unfold OV5640_SetContrast
    rw [hvC]
    dsimp only
    split
    · rfl
    · split
      · rfl
      · split
        · rfl
        · split
          · rfl
          · split <;> rfl
  · unfold OV5640_SetHueDegree
    rw [hv1, hv2, hv8]
    dsimp only
    split
    · rfl
    · split
      · rfl
      · split
        · rfl
        · split
          · rfl
          · split <;> rfl
  · unfold OV5640_SetBrightness
    rw [hnoneL brightness_level hlen.1]
    rfl
  · unfold OV5640_SetSaturation
    rw [hnoneL saturation_level hlen.2.1]
    rfl
  · unfold OV5640_SetContrast
    rw [hnoneL contrast_level hlen.2.2.1]
    rfl
  · unfold OV5640_SetHueDegree
    rw [hnoneD hue_degree_ctrl1 hlen.2.2.2.1]
    rfl

/-- C5 witness: at Level 3 and Degree -6 every lookup is in bounds and
the setters produce a result; at Level 5 and Degree 6 the unchecked
lookup is out of bounds. -/
theorem claim_C5_witness :
    (OV5640_SetBrightness okBus () OV5640_defaultObj 3).isSome ∧
    (OV5640_SetHueDegree okBus () OV5640_defaultObj (-6)).isSome ∧
    OV5640_SetBrightness okBus () OV5640_defaultObj 5 = none ∧
    OV5640_SetHueDegree okBus () OV5640_defaultObj 6 = none := by
  have h := claim_C5_index_bounds okBus () OV5640_defaultObj 3 (-6) 5 6
    (by decide) (by decide) (by decide) (by decide) (Or.inr (by decide)) (Or.inr (by decide))
  exact ⟨h.2.2.1.1, h.2.2.1.2.2.2, h.2.2.2.1, h.2.2.2.2.2.2⟩

/-- If the polled status register 0x3029 never reads the sentinel 0x10,
the single-shot polling loop consumes its whole fuel — one read per
iteration — and returns the error status. -/
theorem focusSinglePoll_never {σ : Type} (B : Bus σ)
    (hB : ∀ s' : σ, (ov5640_read_reg B s' 0x3029).val ≠ 0x10) :
    ∀ (fuel : Nat) (s : σ), (OV5640_Focus_Single_poll B s fuel).ret = OV5640_ERROR ∧
      rdCount (OV5640_Focus_Single_poll B s fuel).trace = fuel := by
  intro fuel
  induction fuel with
  | zero => exact fun s => ⟨rfl, rfl⟩
  | succ n ih =>
    intro s
    unfold OV5640_Focus_Single_poll
    dsimp only
    rw [if_neg (hB s)]
    by_cases hn : n = 0
    · subst hn
      rw [if_pos rfl]
      exact ⟨rfl, rfl⟩
    · rw [if_neg hn]
      obtain ⟨h1, h2⟩ := ih ((ov5640_read_reg B s 0x3029).bus)
      refine ⟨h1, ?_⟩
      simp only [rdCount, ov5640_read_reg, List.countP_append] at h2 ⊢
      simp [h2]
      try omega

/-- If the polled status register 0x3023 never reads the sentinel 0x00,
a continuous-focus polling phase consumes its whole fuel — one read per
iteration — and returns the error status. -/
theorem focusConstantPoll_never {σ : Type} (B : Bus σ)
    (hB : ∀ s' : σ, (ov5640_read_reg B s' 0x3023).val ≠ 0x00) :
    ∀ (fuel : Nat) (s : σ), (OV5640_Focus_Constant_poll B s fuel).ret = OV5640_ERROR ∧
      rdCount (OV5640_Focus_Constant_poll B s fuel).trace = fuel := by
  intro fuel
  induction fuel with
  | zero => exact fun s => ⟨rfl, rfl⟩
  | succ n ih =>
    intro s
    unfold OV5640_Focus_Constant_poll
    dsimp only
    by_cases hn : n = 0
    · subst hn
      rw [if_pos rfl]
      exact ⟨rfl, rfl⟩
    · rw [if_neg hn, if_neg (hB s)]
      obtain ⟨h1, h2⟩ := ih ((ov5640_read_reg B s 0x3023).bus)
      refine ⟨h1, ?_⟩
      simp only [rdCount, ov5640_read_reg, List.countP_append] at h2 ⊢
      simp [h2]
      try omega

set_option maxRecDepth 8000 in
/-- C7 (amended): when the polled status register never reads the
expected sentinel, OV5640_Focus_Single (sentinel 0x10 in register
0x3029) and each polling phase of OV5640_Focus_Constant (sentinel 0x00
in register 0x3023) return the error status after exactly 201 polling
reads, not 200: the retry counter must exceed 200 before the loops give
up.  OV5640_Focus_Single succeeds if the sentinel first appears on the
199th, 200th or even 201st read; a continuous-focus polling phase
proceeds if the sentinel appears within its first 200 reads and fails
on the 201st, whose value it discards. -/
theorem claim_C7_amended {σ : Type} (B : Bus σ) (s : σ) (pObj : OV5640_Object)
    (hUp : ∀ s' : σ, (ov5640_read_reg B s' 0x3029).val ≠ 0x10)
    (hDn : ∀ s' : σ, (ov5640_read_reg B s' 0x3023).val ≠ 0x00) :
    ((OV5640_Focus_Single B s pObj).ret = OV5640_ERROR ∧
      rdCount (OV5640_Focus_Single B s pObj).trace = 201) ∧
    ((OV5640_Focus_Constant B s pObj).ret = OV5640_ERROR ∧
      rdCount (OV5640_Focus_Constant B s pObj).trace = 201) ∧
    ((OV5640_Focus_Single (sentinelBus 0 0x10 199) 0 OV5640_defaultObj).ret = OV5640_OK ∧
      rdCount (OV5640_Focus_Single (sentinelBus 0 0x10 199) 0 OV5640_defaultObj).trace = 199) ∧
    (OV5640_Focus_Single (sentinelBus 0 0x10 201) 0 OV5640_defaultObj).ret = OV5640_OK ∧
    ((OV5640_Focus_Single (sentinelBus 0 0x10 202) 0 OV5640_defaultObj).ret = OV5640_ERROR ∧
      rdCount (OV5640_Focus_Single (sentinelBus 0 0x10 202) 0 OV5640_defaultObj).trace = 201) ∧
    ((OV5640_Focus_Constant_poll (sentinelBus 1 0 200) 0 201).ret = OV5640_OK ∧
      rdCount (OV5640_Focus_Constant_poll (sentinelBus 1 0 200) 0 201).trace = 200) ∧
    ((OV5640_Focus_Constant_poll (sentinelBus 1 0 201) 0 201).ret = OV5640_ERROR ∧
      rdCount (OV5640_Focus_Constant_poll (sentinelBus 1 0 201) 0 201).trace = 201) := by
  refine ⟨?_, ?_, by decide, by decide, by decide, by decide, by decide⟩
  · obtain ⟨h1, h2⟩ := focusSinglePoll_never B hUp 201
      ((ov5640_write_reg B s 0x3022 0x03).bus)
    unfold OV5640_Focus_Single
    refine ⟨h1, ?_⟩
    simp only [rdCount, ov5640_write_reg, List.countP_append] at h2 ⊢
    simp [h2]
  · obtain ⟨h1, h2⟩ := focusConstantPoll_never B hDn 201
      ((ov5640_write_reg B (ov5640_write_reg B s 0x3023 0x01).bus 0x3022 0x08).bus)
    unfold OV5640_Focus_Constant
    dsimp only
    rw [if_pos (by rw [h1]; decide)]
    refine ⟨rfl, ?_⟩
    simp only [rdCount, ov5640_write_reg, List.countP_append] at h2 ⊢
    simp [h2]

set_option maxRecDepth 8000 in
/-- C7 counterexample: on a bus whose status reads never return the
sentinel (reads count themselves in the bus state), OV5640_Focus_Single
performs 201 polling reads — not 200 — before returning the error, and
it still succeeds when the sentinel first appears on the 200th read
(the claim says it fails at 200); OV5640_Focus_Constant's first polling
phase likewise performs 201 reads before failing. -/
theorem claim_C7_counterexample :
    ((OV5640_Focus_Single (sentinelBus 0 0x10 0) 0 OV5640_defaultObj).ret = OV5640_ERROR ∧
      rdCount (OV5640_Focus_Single (sentinelBus 0 0x10 0) 0 OV5640_defaultObj).trace = 201) ∧
    (OV5640_Focus_Single (sentinelBus 0 0x10 200) 0 OV5640_defaultObj).ret = OV5640_OK ∧
    ((OV5640_Focus_Constant (sentinelBus 1 0 0) 0 OV5640_defaultObj).ret = OV5640_ERROR ∧
      rdCount (OV5640_Focus_Constant (sentinelBus 1 0 0) 0 OV5640_defaultObj).trace = 201) := by
  refine ⟨by decide, by decide, by decide⟩

/-- C7 witness: on the bus whose reads always return 1 (never a
sentinel), OV5640_Focus_Single returns the error after exactly 201
polling reads. -/
theorem claim_C7_witness :
    (OV5640_Focus_Single (sentinelBus 1 1 0) 0 OV5640_defaultObj).ret = OV5640_ERROR ∧
    rdCount (OV5640_Focus_Single (sentinelBus 1 1 0) 0 OV5640_defaultObj).trace = 201 :=
  (claim_C7_amended (sentinelBus 1 1 0) 0 OV5640_defaultObj
    (by intro s'; simp [ov5640_read_reg, sentinelBus])
    (by intro s'; simp [ov5640_read_reg, sentinelBus])).1

set_option maxRecDepth 4000 in
/-- Re-masking a masked byte is the identity: reading back a written
0xF9-masked byte and masking it again changes nothing. -/
theorem maskA : ∀ x, x < 256 → ((x &&& 249) &&& 255) &&& 249 = x &&& 249 := by decide

set_option maxRecDepth 4000 in
/-- Reading back a masked byte with the 0x06 pattern OR-ed in and masking
with 0xF9 again recovers the masked byte (0x06 lies in the masked-off
bits). -/
theorem maskB : ∀ x, x < 256 → (((x &&& 249) ||| 6) &&& 255) &&& 249 = x &&& 249 := by decide

/-- C8: OV5640_MirrorFlipConfig is idempotent on the register file: for
every starting state of the two timing-control registers and every
Config value (the four selector values and, via the switch default,
any other value), applying the configuration twice over the
register-file bus leaves registers 0x3820 and 0x3821 exactly as a
single application does, and both calls succeed — each call reads each
register, masks off bits 2:1 with 0xF9 and ORs in the fixed 0x06
pattern for the requested axes. -/
theorem claim_C8_mirrorflip_idempotent (s : Nat → Nat) (pObj : OV5640_Object) (Config : Nat) :
    ((OV5640_MirrorFlipConfig regBus
        (OV5640_MirrorFlipConfig regBus s pObj Config).bus pObj Config).bus 0x3820 =
      (OV5640_MirrorFlipConfig regBus s pObj Config).bus 0x3820) ∧
    ((OV5640_MirrorFlipConfig regBus
        (OV5640_MirrorFlipConfig regBus s pObj Config).bus pObj Config).bus 0x3821 =
      (OV5640_MirrorFlipConfig regBus s pObj Config).bus 0x3821) ∧
    (OV5640_MirrorFlipConfig regBus s pObj Config).ret = OV5640_OK ∧
    (OV5640_MirrorFlipConfig regBus
        (OV5640_MirrorFlipConfig regBus s pObj Config).bus pObj Config).ret = OV5640_OK := by
  by_cases h1 : Config = OV5640_MIRROR
  · simp only [OV5640_MirrorFlipConfig, regBus, ov5640_read_reg, ov5640_write_reg, h1]
    norm_num
    constructor
    · rw [maskA _ (and255_lt _)]
    · rw [maskB _ (and255_lt _)]
  · by_cases h2 : Config = OV5640_FLIP
    · simp only [OV5640_MirrorFlipConfig, regBus, ov5640_read_reg, ov5640_write_reg, h1, h2]
      norm_num
      constructor
      · rw [maskB _ (and255_lt _)]
      · rw [maskA _ (and255_lt _)]
    · by_cases h3 : Config = OV5640_MIRROR_FLIP
      · simp only [OV5640_MirrorFlipConfig, regBus, ov5640_read_reg, ov5640_write_reg, h1, h2, h3]
        norm_num
        constructor
        · rw [maskB _ (and255_lt _)]
        · rw [maskB _ (and255_lt _)]
      · simp only [OV5640_MirrorFlipConfig, regBus, ov5640_read_reg, ov5640_write_reg, h1, h2, h3]
        norm_num
        constructor
        · rw [maskA _ (and255_lt _)]
        · rw [maskA _ (and255_lt _)]

/-- C1: for every successful call to OV5640_SetBrightness,
OV5640_SetSaturation, OV5640_SetContrast or OV5640_SetHueDegree (on a
handle whose persisted codes are bytes), the composite value written to
register SDE_CTRL8 is exactly the bitwise OR of the handle's four
persisted axis codes contrast | bright | huedegree | saturation, where
only the calling operation's own axis code has been updated (brightness
to 0x01 or 0x09 by sign, saturation and contrast to 0x41, hue to its
lookup-table code) and the other three axes retain the values persisted
in the handle before the call. -/
theorem claim_C1_composite_write {σ : Type} (B : Bus σ) (s : σ) (pObj : OV5640_Object)
    (LevelB LevelS LevelC Degree : Int)
    (hbr : pObj.bright < 256) (hsat : pObj.saturation < 256)
    (hcon : pObj.contrast < 256) (hhue : pObj.huedegree < 256)
    (outB outS outC outH : DOut σ)
    (hB : OV5640_SetBrightness B s pObj LevelB = some outB) (hBok : outB.ret = OV5640_OK)
    (hS : OV5640_SetSaturation B s pObj LevelS = some outS) (hSok : outS.ret = OV5640_OK)
    (hC : OV5640_SetContrast B s pObj LevelC = some outC) (hCok : outC.ret = OV5640_OK)
    (hH : OV5640_SetHueDegree B s pObj Degree = some outH) (hHok : outH.ret = OV5640_OK) :
    (writesTo OV5640_SDE_CTRL8 outB.trace =
        [BusOp.wr OV5640_SDE_CTRL8
          (outB.obj.contrast ||| outB.obj.bright ||| outB.obj.huedegree ||| outB.obj.saturation)] ∧
      outB.obj.saturation = pObj.saturation ∧ outB.obj.contrast = pObj.contrast ∧
      outB.obj.huedegree = pObj.huedegree ∧
      outB.obj.bright = (if LevelB < 0 then 0x01 else 0x09)) ∧
    (writesTo OV5640_SDE_CTRL8 outS.trace =
        [BusOp.wr OV5640_SDE_CTRL8
          (outS.obj.contrast ||| outS.obj.bright ||| outS.obj.huedegree ||| outS.obj.saturation)] ∧
      outS.obj.bright = pObj.bright ∧ outS.obj.contrast = pObj.contrast ∧
      outS.obj.huedegree = pObj.huedegree ∧ outS.obj.saturation = 0x41) ∧
    (writesTo OV5640_SDE_CTRL8 outC.trace =
        [BusOp.wr OV5640_SDE_CTRL8
          (outC.obj.contrast ||| outC.obj.bright ||| outC.obj.huedegree ||| outC.obj.saturation)] ∧
      outC.obj.bright = pObj.bright ∧ outC.obj.saturation = pObj.saturation ∧
      outC.obj.huedegree = pObj.huedegree ∧ outC.obj.contrast = 0x41) ∧
    (writesTo OV5640_SDE_CTRL8 outH.trace =
        [BusOp.wr OV5640_SDE_CTRL8
          (outH.obj.contrast ||| outH.obj.bright ||| outH.obj.huedegree ||| outH.obj.saturation)] ∧
      outH.obj.bright = pObj.bright ∧ outH.obj.saturation = pObj.saturation ∧
      outH.obj.contrast = pObj.contrast ∧
      tblIdx hue_degree_ctrl8 (Degree + 6) = some outH.obj.huedegree) := by
  refine ⟨?_, ?_, ?_, ?_⟩
  · simp only [OV5640_SetBrightness] at hB
    split at hB
    · obtain rfl := (Option.some.inj hB).symm
      exact absurd hBok (by assumption)
    · split at hB
      · exact absurd hB (by simp)
      · split at hB
        · obtain rfl := (Option.some.inj hB).symm
          exact absurd hBok (by assumption)
        · split at hB
          · obtain rfl := (Option.some.inj hB).symm
            exact absurd hBok (by assumption)
          · split at hB
            · rename_i hLneg
              split at hB
              · obtain rfl := (Option.some.inj hB).symm
                simp at hBok
              · obtain rfl := (Option.some.inj hB).symm
                refine ⟨?_, rfl, rfl, rfl, ?_⟩
                · simp [writesTo, ov5640_write_reg]
                  rw [or4_byte hcon (by decide) hhue hsat]
                · simp [hLneg]
            · rename_i hLpos
              split at hB
              · obtain rfl := (Option.some.inj hB).symm
                simp at hBok
              · obtain rfl := (Option.some.inj hB).symm
                refine ⟨?_, rfl, rfl, rfl, ?_⟩
                · simp [writesTo, ov5640_write_reg]
                  rw [or4_byte hcon (by decide) hhue hsat]
                · simp [hLpos]
  · simp only [OV5640_SetSaturation] at hS
    split at hS
    · obtain rfl := (Option.some.inj hS).symm
      simp at hSok
    · split at hS
      · exact absurd hS (by simp)
      · split at hS
        · obtain rfl := (Option.some.inj hS).symm
          simp at hSok
        · split at hS
          · obtain rfl := (Option.some.inj hS).symm
            simp at hSok
          · split at hS
            · obtain rfl := (Option.some.inj hS).symm
              simp at hSok
            · split at hS
              · obtain rfl := (Option.some.inj hS).symm
                simp at hSok
              · obtain rfl := (Option.some.inj hS).symm
                refine ⟨?_, rfl, rfl, rfl, rfl⟩
                simp [writesTo, ov5640_write_reg]
                rw [or4_byte hcon hbr hhue (by decide)]
  · simp only [OV5640_SetContrast] at hC
    split at hC
    · obtain rfl := (Option.some.inj hC).symm
      simp at hCok
    · split at hC
      · obtain rfl := (Option.some.inj hC).symm
        simp at hCok
      · split at hC
        · exact absurd hC (by simp)
        · split at hC
          · obtain rfl := (Option.some.inj hC).symm
            simp at hCok
          · split at hC
            · obtain rfl := (Option.some.inj hC).symm
              simp at hCok
            · split at hC
              · obtain rfl := (Option.some.inj hC).symm
                simp at hCok
              · obtain rfl := (Option.some.inj hC).symm
                refine ⟨?_, rfl, rfl, rfl, rfl⟩
                simp [writesTo, ov5640_write_reg]
                rw [or4_byte (by decide) hbr hhue hsat]
  · simp only [OV5640_SetHueDegree] at hH
    split at hH
    · obtain rfl := (Option.some.inj hH).symm
      simp at hHok
    · split at hH
      · obtain rfl := (Option.some.inj hH).symm
        simp at hHok
      · split at hH
        · exact absurd hH (by simp)
        · split at hH
          · obtain rfl := (Option.some.inj hH).symm
            simp at hHok
          · split at hH
            · exact absurd hH (by simp)
            · split at hH
              · obtain rfl := (Option.some.inj hH).symm
                simp at hHok
              · split at hH
                · exact absurd hH (by simp)
                · rename_i v8 heq8
                  split at hH
                  · obtain rfl := (Option.some.inj hH).symm
                    simp at hHok
                  · obtain rfl := (Option.some.inj hH).symm
                    have hv8 : v8 < 256 :=
                      (by decide : ∀ v ∈ hue_degree_ctrl8, v < 256) _ (tblIdx_mem heq8)
                    refine ⟨?_, rfl, rfl, rfl, heq8⟩
                    simp [writesTo, ov5640_write_reg]
                    rw [or4_byte hcon hbr hv8 hsat]

/-- C1 witness: from the registration defaults, a successful
SetBrightness at Level 2, SetSaturation at 2, SetContrast at 2 and
SetHueDegree at 3 over the always-succeeding bus each write the
OR-composite of the four persisted codes to SDE_CTRL8, updating only
their own axis. -/
theorem claim_C1_witness :
    (writesTo OV5640_SDE_CTRL8 outB_w.trace =
        [BusOp.wr OV5640_SDE_CTRL8
          (outB_w.obj.contrast ||| outB_w.obj.bright ||| outB_w.obj.huedegree |||
            outB_w.obj.saturation)] ∧
      outB_w.obj.saturation = OV5640_defaultObj.saturation ∧
      outB_w.obj.contrast = OV5640_defaultObj.contrast ∧
      outB_w.obj.huedegree = OV5640_defaultObj.huedegree ∧
      outB_w.obj.bright = (if (2 : Int) < 0 then 0x01 else 0x09)) ∧
    (writesTo OV5640_SDE_CTRL8 outS_w.trace =
        [BusOp.wr OV5640_SDE_CTRL8
          (outS_w.obj.contrast ||| outS_w.obj.bright ||| outS_w.obj.huedegree |||
            outS_w.obj.saturation)] ∧
      outS_w.obj.bright = OV5640_defaultObj.bright ∧
      outS_w.obj.contrast = OV5640_defaultObj.contrast ∧
      outS_w.obj.huedegree = OV5640_defaultObj.huedegree ∧
      outS_w.obj.saturation = 0x41) ∧
    (writesTo OV5640_SDE_CTRL8 outC_w.trace =
        [BusOp.wr OV5640_SDE_CTRL8
          (outC_w.obj.contrast ||| outC_w.obj.bright ||| outC_w.obj.huedegree |||
            outC_w.obj.saturation)] ∧
      outC_w.obj.bright = OV5640_defaultObj.bright ∧
      outC_w.obj.saturation = OV5640_defaultObj.saturation ∧
      outC_w.obj.huedegree = OV5640_defaultObj.huedegree ∧
      outC_w.obj.contrast = 0x41) ∧
    (writesTo OV5640_SDE_CTRL8 outH_w.trace =
        [BusOp.wr OV5640_SDE_CTRL8
          (outH_w.obj.contrast ||| outH_w.obj.bright ||| outH_w.obj.huedegree |||
            outH_w.obj.saturation)] ∧
      outH_w.obj.bright = OV5640_defaultObj.bright ∧
      outH_w.obj.saturation = OV5640_defaultObj.saturation ∧
      outH_w.obj.contrast = OV5640_defaultObj.contrast ∧
      tblIdx hue_degree_ctrl8 ((3 : Int) + 6) = some outH_w.obj.huedegree) :=
  claim_C1_composite_write okBus () OV5640_defaultObj 2 2 2 3
    (by decide) (by decide) (by decide) (by decide)
    outB_w outS_w outC_w outH_w rfl rfl rfl rfl rfl rfl rfl rfl

set_option maxHeartbeats 800000 in
/-- C4: on an uninitialized handle, OV5640_Init rejects any resolution
above OV5640_R800x480 and any pixel format outside the five supported
ones, returning the error status with no bus operation and the handle
unchanged; and after any OV5640_Init call on such a handle the
IsInitialized flag is 1 exactly when the call returned OV5640_OK — on
any step failure the handle (hence the flag, still 0) is unchanged. -/
theorem claim_C4_init_validation_flag {σ : Type} (B : Bus σ) (s : σ) (pObj : OV5640_Object)
    (Resolution PixelFormat : Nat) (h0 : pObj.IsInitialized = 0) :
    ((Resolution > OV5640_R800x480 ∨
        (PixelFormat ≠ OV5640_RGB565 ∧ PixelFormat ≠ OV5640_YUV422 ∧
         PixelFormat ≠ OV5640_RGB888 ∧ PixelFormat ≠ OV5640_Y8 ∧
         PixelFormat ≠ OV5640_JPEG)) →
      OV5640_Init B s pObj Resolution PixelFormat = ⟨s, pObj, OV5640_ERROR, []⟩) ∧
    ((OV5640_Init B s pObj Resolution PixelFormat).obj.IsInitialized = 1 ↔
      (OV5640_Init B s pObj Resolution PixelFormat).ret = OV5640_OK) ∧
    ((OV5640_Init B s pObj Resolution PixelFormat).ret ≠ OV5640_OK →
      (OV5640_Init B s pObj Resolution PixelFormat).obj = pObj) := by
  refine ⟨?_, ?_, ?_⟩
  · intro hv
    unfold OV5640_Init
    rw [if_pos h0, if_pos hv]
  · unfold OV5640_Init
    rw [if_pos h0]
    by_cases hv : Resolution > OV5640_R800x480 ∨
        (PixelFormat ≠ OV5640_RGB565 ∧ PixelFormat ≠ OV5640_YUV422 ∧
         PixelFormat ≠ OV5640_RGB888 ∧ PixelFormat ≠ OV5640_Y8 ∧
         PixelFormat ≠ OV5640_JPEG)
    · rw [if_pos hv]
      simp [h0]
    · rw [if_neg hv]
      dsimp only
      generalize applyTableGuarded B s OV5640_OK OV5640_Common = c
      repeat' split
      all_goals simp_all
  · unfold OV5640_Init
    rw [if_pos h0]
    by_cases hv : Resolution > OV5640_R800x480 ∨
        (PixelFormat ≠ OV5640_RGB565 ∧ PixelFormat ≠ OV5640_YUV422 ∧
         PixelFormat ≠ OV5640_RGB888 ∧ PixelFormat ≠ OV5640_Y8 ∧
         PixelFormat ≠ OV5640_JPEG)
    · rw [if_pos hv]
      intro
      rfl
    · rw [if_neg hv]
      dsimp only
      generalize applyTableGuarded B s OV5640_OK OV5640_Common = c
      repeat' split
      all_goals simp_all

/-- C4 witness: on the uninitialized default handle, the unsupported
resolution 5 is rejected as a no-op error, and for the supported
800x480/RGB565 configuration the flag-iff-success equivalence holds. -/
theorem claim_C4_witness :
    OV5640_Init okBus () OV5640_defaultObj 5 OV5640_RGB565 =
      ⟨(), OV5640_defaultObj, OV5640_ERROR, []⟩ ∧
    ((OV5640_Init okBus () OV5640_defaultObj OV5640_R800x480 OV5640_RGB565).obj.IsInitialized = 1 ↔
      (OV5640_Init okBus () OV5640_defaultObj OV5640_R800x480 OV5640_RGB565).ret = OV5640_OK) :=
  ⟨(claim_C4_init_validation_flag okBus () OV5640_defaultObj 5 OV5640_RGB565 rfl).1
      (Or.inl (by decide)),
    (claim_C4_init_validation_flag okBus () OV5640_defaultObj OV5640_R800x480 OV5640_RGB565
      rfl).2.1⟩

/-- The firmware-upload loop issues exactly one write per byte, at
consecutive addresses, whatever the bus returns. -/
theorem uploadTrace_eq {σ : Type} (B : Bus σ) :
    ∀ (l : List Nat) (addr : Nat) (s : σ),
      (OV5640_Focus_Init_upload B s addr l).2 = uploadWrites addr l := by
  intro l
  induction l with
  | nil => intro addr s; rfl
  | cons b rest ih =>
    intro addr s
    simp [OV5640_Focus_Init_upload, uploadWrites, ov5640_write_reg, ih]

/-- The i-th write of the upload sequence targets address addr + i and
carries the i-th byte of the blob (and there is no such write past the
end of the blob). -/
theorem uploadWrites_get (l : List Nat) :
    ∀ (addr i : Nat), (uploadWrites addr l)[i]? =
      (l[i]?).map (fun b => BusOp.wr (addr + i) b) := by
  induction l with
  | nil => intro addr i; simp [uploadWrites]
  | cons b rest ih =>
    intro addr i
    cases i with
    | zero => simp [uploadWrites]
    | succ n =>
      have ha : addr + 1 + n = addr + (n + 1) := by omega
      simp only [uploadWrites, List.getElem?_cons_succ]
      rw [ih (addr + 1) n, ha]

/-- The release loop of OV5640_Focus_Init writes the halt entry
(0x3000, 0x20) once more at index 0 and then faults: at index 1 it reads
the one-entry `datas` table out of bounds, so it never completes and
never writes any entry of `datas2`. -/
theorem releaseLoop_defect {σ : Type} (B : Bus σ) (s : σ) (ret : Int) :
    OV5640_Focus_Init_release B s 0 OV5640_Focus_Init_datas2 ret =
      ([BusOp.wr 0x3000 0x20], none) := by
  simp [OV5640_Focus_Init_release, OV5640_Focus_Init_datas2, OV5640_Focus_Init_datas,
    ov5640_write_reg]
  decide

/-- C6: on every bus, OV5640_Focus_Init first writes the halt command
(0x3000, 0x20), then uploads every byte of OV5640_AF_Config — the i-th
upload write targets address 0x8000 + i with value OV5640_AF_Config[i] —
but then, instead of writing the nine-entry release sequence of datas2
(registers 0x3022..0x3029 and the 0x3000 = 0x00 halt release), its
release loop re-writes the halt entry (0x3000, 0x20) and faults with an
out-of-bounds access of the one-entry `datas` table at index 1 (result
`none`), never reaching the status poll. -/
theorem claim_C6_focus_init_release_defect {σ : Type} (B : Bus σ) (s : σ)
    (pObj : OV5640_Object) :
    (OV5640_Focus_Init B s pObj).2 = none ∧
    (OV5640_Focus_Init B s pObj).1 =
      [BusOp.wr 0x3000 0x20] ++ uploadWrites 0x8000 OV5640_AF_Config ++
        [BusOp.wr 0x3000 0x20] ∧
    (∀ i : Nat, (uploadWrites 0x8000 OV5640_AF_Config)[i]? =
      (OV5640_AF_Config[i]?).map (fun b => BusOp.wr (0x8000 + i) b)) := by
  refine ⟨?_, ?_, fun i => uploadWrites_get OV5640_AF_Config 0x8000 i⟩
  · unfold OV5640_Focus_Init
    dsimp only
    rw [releaseLoop_defect]
  · unfold OV5640_Focus_Init
    dsimp only
    rw [releaseLoop_defect]
    dsimp only
    rw [uploadTrace_eq]
    rfl
